import Mathlib

/-
Verification of the interview-simulator core: the resilient LLM chat
clients (backend/models/http_client.py, backend/models/hf_inference_client.py),
the personas (backend/agents/base.py, tech.py, hr.py, mentor.py) and the
Orchestrator (backend/orchestrator.py), shallowly embedded in Lean.
Network interaction is modelled by a scripted transport: a list of outcomes
consumed one per POST attempt, together with a log of the requests sent.
-/

namespace ISim

/-! ## Python string primitives used by the source -/

/-- Whitespace characters stripped by the Python str.strip() default
(ASCII subset, which is all the source ever strips). -/
def isPySpace (c : Char) : Bool :=
  c = ' ' || c = '\t' || c = '\n' || c = '\x0d' || c = '\x0b' || c = '\x0c'

/-- Python str.strip(): drop leading and trailing whitespace. -/
def pyStrip (s : String) : String :=
  String.mk (((s.toList.dropWhile isPySpace).reverse.dropWhile isPySpace).reverse)

/-- Python str.lower() on the ASCII range (all tags and keys in the source are ASCII). -/
def pyLower (s : String) : String :=
  String.mk (s.toList.map Char.toLower)

/-- Python slicing s[:n] on text. -/
def strTake (s : String) (n : Nat) : String :=
  String.mk (s.toList.take n)

/-- Python str.rstrip("/") used on base URLs. -/
def rstripSlash (s : String) : String :=
  String.mk ((s.toList.reverse.dropWhile (· = '/')).reverse)

/-- Python substring test: needle in haystack. -/
def hasSub (hay needle : List Char) : Bool :=
  match hay with
  | [] => needle.isEmpty
  | _ :: t => needle.isPrefixOf hay || hasSub t needle

/-- Python s.split(sep, 1): at most one split, at the first occurrence of sep
(sep is never empty in the source). -/
def pySplit1 (s sep : List Char) : List (List Char) :=
  match s with
  | [] => [[]]
  | c :: t =>
    if sep.isPrefixOf (c :: t) then [[], (c :: t).drop sep.length]
    else
      match pySplit1 t sep with
      | before :: rest => (c :: before) :: rest
      | [] => [[c]]

/-- Helper of pySplitWs: place a non-whitespace character in front of the
words already split off the tail. -/
def consWord (c : Char) (t : List Char) (rest : List (List Char)) :
    List (List Char) :=
  match rest, t with
  | w :: ws, d :: _ => if isPySpace d then [c] :: w :: ws else (c :: w) :: ws
  | [], _ => [[c]]
  | _ :: _, [] => [[c]]

/-- Python s.split() with no argument: split on whitespace runs, dropping empties. -/
def pySplitWs : List Char → List (List Char)
  | [] => []
  | c :: t => if isPySpace c then pySplitWs t else consWord c t (pySplitWs t)

/-- Python s.strip(",;."): drop those characters from both ends. -/
def stripPunct (s : List Char) : List Char :=
  let p := fun c => c = ',' || c = ';' || c = '.'
  ((s.dropWhile p).reverse.dropWhile p).reverse

/-- Drop the characters , ; . from the end only (the literal reading of the
claim text about hint extraction). -/
def stripTrailingPunct (s : List Char) : List Char :=
  let p := fun c => c = ',' || c = ';' || c = '.'
  (s.reverse.dropWhile p).reverse

/-- The suffix after the first occurrence of needle, none when absent. -/
def afterFirstSub (hay needle : List Char) : Option (List Char) :=
  match hay with
  | [] => if needle.isEmpty then some [] else none
  | _ :: t =>
    if needle.isPrefixOf hay then some (hay.drop needle.length)
    else afterFirstSub t needle

/-! ## JSON values and json.loads / json.dumps

The source parses response bodies and model output with Python json.loads
and serializes with json.dumps. Numbers keep their literal token (the
source never computes with parsed numbers, only stores and compares them). -/

inductive Json where
  | null
  | bool (b : Bool)
  | num (lit : String)
  | str (s : String)
  | arr (xs : List Json)
  | obj (kvs : List (String × Json))

/-- Lookup in a parsed JSON object (Python dict access). -/
def jlookup (k : String) : List (String × Json) → Option Json
  | [] => none
  | (k2, v) :: rest => if k2 = k then some v else jlookup k rest

/-- Insert into a parsed object the way Python dicts do while json.loads
builds them: a repeated key overwrites in place, a new key is appended. -/
def dinsert (kvs : List (String × Json)) (k : String) (v : Json) :
    List (String × Json) :=
  if kvs.any (fun p => p.1 = k) then
    kvs.map (fun p => if p.1 = k then (k, v) else p)
  else kvs ++ [(k, v)]

/-- Python dict.setdefault(k, v): keep an existing entry, append a default
for a missing key. -/
def setdefault (kvs : List (String × Json)) (k : String) (v : Json) :
    List (String × Json) :=
  if kvs.any (fun p => p.1 = k) then kvs else kvs ++ [(k, v)]

def jsonWs (c : Char) : Bool :=
  c = ' ' || c = '\t' || c = '\n' || c = '\x0d'

def isHexDigit (c : Char) : Bool :=
  c.isDigit || ('a' ≤ c && c ≤ 'f') || ('A' ≤ c && c ≤ 'F')

def hexVal (c : Char) : Nat :=
  if c.isDigit then c.toNat - '0'.toNat
  else if 'a' ≤ c && c ≤ 'f' then c.toNat - 'a'.toNat + 10
  else c.toNat - 'A'.toNat + 10

/-- Parse the inside of a JSON string literal after the opening quote.
Returns the decoded text and the rest after the closing quote. -/
def parseJStr (fuel : Nat) (cs : List Char) (acc : List Char) :
    Option (String × List Char) :=
  match fuel with
  | 0 => none
  | fuel + 1 =>
    match cs with
    | [] => none
    | '"' :: rest => some (String.mk acc.reverse, rest)
    | '\\' :: e :: rest =>
      match e with
      | '"' => parseJStr fuel rest ('"' :: acc)
      | '\\' => parseJStr fuel rest ('\\' :: acc)
      | '/' => parseJStr fuel rest ('/' :: acc)
      | 'n' => parseJStr fuel rest ('\n' :: acc)
      | 't' => parseJStr fuel rest ('\t' :: acc)
      | 'r' => parseJStr fuel rest ('\x0d' :: acc)
      | 'b' => parseJStr fuel rest ('\x08' :: acc)
      | 'f' => parseJStr fuel rest ('\x0c' :: acc)
      | 'u' =>
        match rest with
        | h1 :: h2 :: h3 :: h4 :: rest2 =>
          if isHexDigit h1 && isHexDigit h2 && isHexDigit h3 && isHexDigit h4 then
            let n := ((hexVal h1 * 16 + hexVal h2) * 16 + hexVal h3) * 16 + hexVal h4
            parseJStr fuel rest2 (Char.ofNat n :: acc)
          else none
        | _ => none
      | _ => none
    | c :: rest =>
      if c.toNat < 32 then none else parseJStr fuel rest (c :: acc)

/-- Parse a JSON number literal, keeping its token text. -/
def parseJNum (cs : List Char) : Option (String × List Char) :=
  let (neg, cs1) := match cs with
    | '-' :: t => (['-'], t)
    | _ => (([] : List Char), cs)
  let intPart := cs1.takeWhile Char.isDigit
  let cs2 := cs1.dropWhile Char.isDigit
  if intPart.isEmpty then none
  else if intPart.length > 1 && intPart.head? = some '0' then none
  else
    let (frac, cs3) :=
      match cs2 with
      | '.' :: t =>
        let ds := t.takeWhile Char.isDigit
        if ds.isEmpty then (none, cs2) else (some ('.' :: ds), t.dropWhile Char.isDigit)
      | _ => (none, cs2)
    match frac, cs3 with
    | none, '.' :: _ => none
    | _, _ =>
      let (ex, cs4) :=
        match cs3 with
        | e :: t =>
          if e = 'e' || e = 'E' then
            let (sgn, t2) := match t with
              | s :: t2 => if s = '+' || s = '-' then ([s], t2) else (([] : List Char), t)
              | [] => ([], t)
            let ds := t2.takeWhile Char.isDigit
            if ds.isEmpty then (none, cs3)
            else (some (e :: (sgn ++ ds)), t2.dropWhile Char.isDigit)
          else (none, cs3)
        | [] => (none, cs3)
      match cs3, ex with
      | e :: _, none =>
        if e = 'e' || e = 'E' then none
        else some (String.mk (neg ++ intPart ++ (frac.getD []) ++ []), cs4)
      | _, _ =>
        some (String.mk (neg ++ intPart ++ (frac.getD []) ++ (ex.getD [])), cs4)

mutual

/-- Parse one JSON value (after leading whitespace is skipped by the caller). -/
def parseJVal (fuel : Nat) (cs : List Char) : Option (Json × List Char) :=
  match fuel with
  | 0 => none
  | fuel + 1 =>
    match cs with
    | 'n' :: 'u' :: 'l' :: 'l' :: rest => some (.null, rest)
    | 't' :: 'r' :: 'u' :: 'e' :: rest => some (.bool true, rest)
    | 'f' :: 'a' :: 'l' :: 's' :: 'e' :: rest => some (.bool false, rest)
    | '"' :: rest =>
      match parseJStr (fuel + 1) rest [] with
      | some (s, rest2) => some (.str s, rest2)
      | none => none
    | '[' :: rest =>
      match (rest.dropWhile jsonWs) with
      | ']' :: rest2 => some (.arr [], rest2)
      | rest1 =>
        match parseJItems fuel rest1 with
        | some (xs, rest2) => some (.arr xs, rest2)
        | none => none
    | '{' :: rest =>
      match (rest.dropWhile jsonWs) with
      | '}' :: rest2 => some (.obj [], rest2)
      | rest1 =>
        match parseJPairs fuel rest1 [] with
        | some (kvs, rest2) => some (.obj kvs, rest2)
        | none => none
    | _ =>
      match parseJNum cs with
      | some (lit, rest) => some (.num lit, rest)
      | none => none

/-- Parse the comma-separated items of a nonempty JSON array, up to and
including the closing bracket. -/
def parseJItems (fuel : Nat) (cs : List Char) : Option (List Json × List Char) :=
  match fuel with
  | 0 => none
  | fuel + 1 =>
    match parseJVal fuel cs with
    | none => none
    | some (v, rest) =>
      match rest.dropWhile jsonWs with
      | ']' :: rest2 => some ([v], rest2)
      | ',' :: rest2 =>
        match parseJItems fuel (rest2.dropWhile jsonWs) with
        | some (xs, rest3) => some (v :: xs, rest3)
        | none => none
      | _ => none

/-- Parse the key-value pairs of a nonempty JSON object, up to and including
the closing brace, building the dict with Python overwrite semantics. -/
def parseJPairs (fuel : Nat) (cs : List Char) (acc : List (String × Json)) :
    Option (List (String × Json) × List Char) :=
  match fuel with
  | 0 => none
  | fuel + 1 =>
    match cs with
    | '"' :: rest =>
      match parseJStr (fuel + 1) rest [] with
      | none => none
      | some (k, rest1) =>
        match rest1.dropWhile jsonWs with
        | ':' :: rest2 =>
          match parseJVal fuel (rest2.dropWhile jsonWs) with
          | none => none
          | some (v, rest3) =>
            match rest3.dropWhile jsonWs with
            | '}' :: rest4 => some (dinsert acc k v, rest4)
            | ',' :: rest4 => parseJPairs fuel (rest4.dropWhile jsonWs) (dinsert acc k v)
            | _ => none
        | _ => none
    | _ => none

end

/-- Python json.loads: parse a complete JSON document, allowing surrounding
whitespace, rejecting trailing garbage. -/
def json_loads (s : String) : Option Json :=
  let cs := s.toList
  match parseJVal (cs.length + 1) (cs.dropWhile jsonWs) with
  | some (v, rest) => if (rest.dropWhile jsonWs).isEmpty then some v else none
  | none => none

def escapeJChar (c : Char) : List Char :=
  if c = '"' then ['\\', '"']
  else if c = '\\' then ['\\', '\\']
  else if c = '\n' then ['\\', 'n']
  else if c = '\t' then ['\\', 't']
  else if c = '\x0d' then ['\\', 'r']
  else if c.toNat < 32 then ['\\', 'u', '0', '0',
    (if c.toNat / 16 = 0 then '0' else '1'), Char.ofNat ((c.toNat % 16) +
      (if c.toNat % 16 < 10 then '0'.toNat else 'a'.toNat - 10))]
  else [c]

def escapeJStr (s : String) : String :=
  String.mk (s.toList.flatMap escapeJChar)

def joinComma (xs : List String) : String :=
  String.intercalate ", " xs

/-- Python json.dumps with default separators (fuel-bounded over depth; the
source only ever puts the result inside diagnostic messages). -/
def dumpsF : Nat → Json → String
  | 0, _ => ""
  | _ + 1, .null => "null"
  | _ + 1, .bool true => "true"
  | _ + 1, .bool false => "false"
  | _ + 1, .num l => l
  | _ + 1, .str s => "\"" ++ escapeJStr s ++ "\""
  | n + 1, .arr xs => "[" ++ joinComma (xs.map (dumpsF n)) ++ "]"
  | n + 1, .obj kvs =>
    "\x7b" ++ joinComma (kvs.map (fun p => "\"" ++ escapeJStr p.1 ++ "\": " ++ dumpsF n p.2)) ++ "\x7d"

def json_dumps (j : Json) : String := dumpsF 1000 j

/-! ## The scripted network transport

A POST either fails at the network layer or yields a status and a body.
The embedding consumes a script of such outcomes, one per attempt, and logs
every request it sends, so the theorems can count attempts and inspect the
requests. The calls field counts complete_chat invocations (the spec section
on testable properties phrases the persona short-circuit property through a
call-count spy on the chat client). -/

/-- A chat message, {role, content} in the source. -/
structure Message where
  role : String
  content : String
deriving DecidableEq, Repr

/-- The Python exceptions the embedded code can raise. HttpError is the
custom retryable exception class of both client modules. -/
inductive PyErr where
  | valueError (msg : String)
  | keyError (msg : String)
  | httpError (msg : String)
  | runtimeError (msg : String)
  | attributeError
  | typeError
  | jsonDecodeError
  | zeroDivisionError
deriving DecidableEq, Repr

structure HttpResponse where
  status : Nat
  body : String
deriving DecidableEq, Repr

/-- One scripted outcome of a POST attempt. -/
inductive PostResult where
  | netErr (msg : String)
  | resp (r : HttpResponse)
deriving DecidableEq, Repr

/-- Transport state: the remaining script, the log of sent requests, and the
number of complete_chat invocations so far. -/
structure NetState (ρ : Type) where
  script : List PostResult
  log : List ρ
  calls : Nat
deriving DecidableEq, Repr

/-- Send one request: log it and consume the next scripted outcome (an
exhausted script behaves as a network failure). -/
def doPost {ρ : Type} (req : ρ) (s : NetState ρ) : PostResult × NetState ρ :=
  match s.script with
  | [] => (.netErr "connection refused", { s with log := s.log ++ [req] })
  | r :: t => (r, { s with script := t, log := s.log ++ [req] })

/-- Outcome of one attempt inside the tenacity retry loop: success, an
HttpError (retried), or any other exception (raised immediately). -/
inductive AttemptResult (α : Type) where
  | ok (a : α)
  | transient (msg : String)
  | perm (e : PyErr)

/-- The tenacity retry decorator, retry_if_exception_type(HttpError) with
stop_after_attempt(fuel) and reraise=True: run attempts until one succeeds,
raises a non-HttpError, or the attempt budget is exhausted, in which case the
last HttpError is reraised. -/
def retryCall {ρ α : Type} (fuel : Nat)
    (once : NetState ρ → AttemptResult α × NetState ρ) (s : NetState ρ) :
    Except PyErr α × NetState ρ :=
  match fuel with
  | 0 => (.error (.httpError "no attempts"), s)
  | n + 1 =>
    match once s with
    | (.ok a, s1) => (.ok a, s1)
    | (.perm e, s1) => (.error e, s1)
    | (.transient m, s1) =>
      if n = 0 then (.error (.httpError m), s1) else retryCall n once s1

/-! ## HttpLLMClient (backend/models/http_client.py) -/

/-- The configuration the client reads from the environment at construction. -/
structure ClientConfig where
  base_url : String
  api_key : String
  model : String
  default_max_tokens : Int
  timeout : Int
  stream_default : Bool
  org : String
  fb_base_url : String
  fb_api_key : String
  fb_model : String
deriving DecidableEq, Repr

/-- The body of a /chat/completions request. -/
structure ChatPayload where
  model : String
  messages : List Message
  max_tokens : Int
  temperature : Rat
  stream : Bool
deriving DecidableEq, Repr

/-- A logged outbound request of HttpLLMClient. -/
structure ChatRequest where
  url : String
  headers : List (String × String)
  payload : ChatPayload
deriving DecidableEq, Repr

/-- HttpLLMClient._endpoint. -/
def endpoint (base_url : String) : String :=
  rstripSlash base_url ++ "/chat/completions"

/-- The headers built in HttpLLMClient.__init__. -/
def primary_headers (cfg : ClientConfig) : List (String × String) :=
  [("Authorization", "Bearer " ++ cfg.api_key), ("Content-Type", "application/json")] ++
    (if cfg.org ≠ "" then [("OpenAI-Organization", cfg.org)] else [])

/-- The fallback headers built in _try_fallback_if_quota. -/
def fb_headers (cfg : ClientConfig) : List (String × String) :=
  [("Authorization", "Bearer " ++ cfg.fb_api_key), ("Content-Type", "application/json")]

/-- One attempt of HttpLLMClient._post: network errors and 5xx raise
HttpError (retried); anything else, 4xx included, is returned. -/
def post_once (req : ChatRequest) (s : NetState ChatRequest) :
    AttemptResult HttpResponse × NetState ChatRequest :=
  match doPost req s with
  | (.netErr m, s1) => (.transient ("Network error: " ++ m), s1)
  | (.resp r, s1) =>
    if 500 ≤ r.status ∧ r.status < 600 then
      (.transient ("Upstream " ++ toString r.status ++ ": " ++ strTake r.body 300), s1)
    else (.ok r, s1)

/-- HttpLLMClient._post with its tenacity decorator: stop_after_attempt(4). -/
def post (req : ChatRequest) (s : NetState ChatRequest) :
    Except PyErr HttpResponse × NetState ChatRequest :=
  retryCall 4 (post_once req) s

/-- Truthiness of the fallback triple, as tested by _try_fallback_if_quota. -/
def fbConfigured (cfg : ClientConfig) : Bool :=
  cfg.fb_base_url ≠ "" && cfg.fb_api_key ≠ "" && cfg.fb_model ≠ ""

/-- HttpLLMClient._try_fallback_if_quota. The try block only covers
r.json().get("error", ...): a body that is not JSON, or whose top level is
not an object, makes that line raise and the except clause returns r; but a
parsed error field that is not itself an object makes the unguarded
err.get("code") raise AttributeError out of the method. -/
def try_fallback_if_quota (cfg : ClientConfig) (r : HttpResponse)
    (messages : List Message) (max_tokens : Int) (temperature : Rat)
    (s : NetState ChatRequest) : Except PyErr HttpResponse × NetState ChatRequest :=
  if r.status ≠ 429 then (.ok r, s)
  else if ¬ fbConfigured cfg then (.ok r, s)
  else
    match json_loads r.body with
    | none => (.ok r, s)
    | some (.obj kvs) =>
      match (jlookup "error" kvs).getD (.obj []) with
      | .obj ekvs =>
        match jlookup "code" ekvs with
        | some (.str c) =>
          if c = "insufficient_quota" then
            let payload : ChatPayload :=
              { model := cfg.fb_model, messages := messages,
                max_tokens := max_tokens, temperature := temperature, stream := false }
            post { url := endpoint cfg.fb_base_url, headers := fb_headers cfg,
                   payload := payload } s
          else (.ok r, s)
        | _ => (.ok r, s)
      | _ => (.error .attributeError, s)
    | some _ => (.ok r, s)

/-- Python data["choices"][0]["message"]["content"].strip(); any failure on
that path (missing key, wrong shape, non-string content) raises inside the
try and is reported as none here. -/
def extractContent : Json → Option String
  | .obj kvs =>
    match jlookup "choices" kvs with
    | some (.arr (c0 :: _)) =>
      match c0 with
      | .obj ckvs =>
        match jlookup "message" ckvs with
        | some (.obj mkvs) =>
          match jlookup "content" mkvs with
          | some (.str t) => some (pyStrip t)
          | _ => none
        | _ => none
      | _ => none
    | _ => none
  | _ => none

/-- Python int(max_tokens or self.default_max_tokens): None and 0 are falsy
and fall back to the configured default. -/
def resolve_max_tokens (max_tokens : Option Int) (dflt : Int) : Int :=
  match max_tokens with
  | none => dflt
  | some m => if m = 0 then dflt else m

/-- HttpLLMClient.complete_chat. The error branch for status ≥ 400 always
carries r.text[:300]: the RuntimeError raised inside its own try block is
caught by the except Exception clause, which re-raises the text variant. -/
def complete_chat (cfg : ClientConfig) (messages : List Message)
    (max_tokens : Option Int) (temperature : Rat) (stream : Option Bool)
    (s0 : NetState ChatRequest) : Except PyErr String × NetState ChatRequest :=
  let s := { s0 with calls := s0.calls + 1 }
  if messages.isEmpty then
    (.error (.valueError "messages must be a non-empty list of {role, content} dicts"), s)
  else
    let use_stream0 := match stream with
      | none => cfg.stream_default
      | some b => b
    let use_stream := if use_stream0 then false else use_stream0
    let eff_max := resolve_max_tokens max_tokens cfg.default_max_tokens
    let payload : ChatPayload :=
      { model := cfg.model, messages := messages, max_tokens := eff_max,
        temperature := temperature, stream := use_stream }
    match post { url := endpoint cfg.base_url, headers := primary_headers cfg,
                 payload := payload } s with
    | (.error e, s1) => (.error e, s1)
    | (.ok r, s1) =>
      match try_fallback_if_quota cfg r messages eff_max temperature s1 with
      | (.error e, s2) => (.error e, s2)
      | (.ok r2, s2) =>
        if 400 ≤ r2.status then
          (.error (.runtimeError ("LLM API " ++ toString r2.status ++ ": " ++
            strTake r2.body 300)), s2)
        else
          match json_loads r2.body with
          | none => (.error .jsonDecodeError, s2)
          | some data =>
            match extractContent data with
            | some c => (.ok c, s2)
            | none =>
              (.error (.runtimeError ("Unexpected response shape: " ++
                strTake (json_dumps data) 300)), s2)

/-! ## HFInferenceClient (backend/models/hf_inference_client.py) -/

structure HFConfig where
  api_key : String
  model : String
  default_max_tokens : Int
  timeout : Int
deriving DecidableEq, Repr

/-- The raw-inference request, {inputs, parameters} in the source. -/
structure HFRequest where
  url : String
  headers : List (String × String)
  inputs : String
  max_new_tokens : Int
  temperature : Rat
  return_full_text : Bool
deriving DecidableEq, Repr

def hf_url (cfg : HFConfig) : String :=
  "https://api-inference.huggingface.co/models/" ++ cfg.model

def hf_headers (cfg : HFConfig) : List (String × String) :=
  [("Authorization", "Bearer " ++ cfg.api_key), ("Content-Type", "application/json")]

/-- The role normalization inside _qwen_chatml. -/
def chatmlRole (r : String) : String :=
  if r = "system" ∨ r = "user" ∨ r = "assistant" then r else "user"

/-- hf_inference_client._qwen_chatml. -/
def qwen_chatml (messages : List Message) : String :=
  (messages.foldl (fun acc m =>
    acc ++ "<|im_start|>" ++ chatmlRole m.role ++ "\n" ++ m.content ++ "<|im_end|>") "")
  ++ "<|im_start|>assistant\n"

/-- One attempt of HFInferenceClient._post: network errors and 5xx raise
HttpError (retried); 4xx raises RuntimeError, which tenacity does not retry. -/
def hf_post_once (req : HFRequest) (s : NetState HFRequest) :
    AttemptResult HttpResponse × NetState HFRequest :=
  match doPost req s with
  | (.netErr m, s1) => (.transient ("Network error: " ++ m), s1)
  | (.resp r, s1) =>
    if 500 ≤ r.status then
      (.transient ("Upstream " ++ toString r.status ++ ": " ++ strTake r.body 200), s1)
    else if 400 ≤ r.status then
      (.perm (.runtimeError ("HF Inference API " ++ toString r.status ++ ": " ++
        strTake r.body 300)), s1)
    else (.ok r, s1)

/-- HFInferenceClient._post with its tenacity decorator: stop_after_attempt(3). -/
def hf_post (req : HFRequest) (s : NetState HFRequest) :
    Except PyErr HttpResponse × NetState HFRequest :=
  retryCall 3 (hf_post_once req) s

/-- The response-shape dispatch at the end of HFInferenceClient.complete_chat,
including the Python quirks of the isinstance checks: "generated_text" in x is
a substring test when x is a string and a membership test when x is a list,
and indexing those with a string key raises TypeError; a non-string
generated_text value makes .strip() raise AttributeError. -/
def hf_parse_response (data : Json) : Except PyErr String :=
  match data with
  | .arr (first :: _) =>
    match first with
    | .obj kvs =>
      match jlookup "generated_text" kvs with
      | some (.str t) => .ok (pyStrip t)
      | some _ => .error .attributeError
      | none =>
        .error (.runtimeError ("Unexpected HF response: " ++
          strTake (json_dumps data) 300))
    | .str t =>
      if hasSub t.toList "generated_text".toList then .error .typeError
      else .error (.runtimeError ("Unexpected HF response: " ++
        strTake (json_dumps data) 300))
    | .arr inner =>
      if inner.any (fun j => match j with | .str s => s = "generated_text" | _ => false)
      then .error .typeError
      else .error (.runtimeError ("Unexpected HF response: " ++
        strTake (json_dumps data) 300))
    | _ => .error .typeError
  | .obj kvs =>
    match jlookup "generated_text" kvs with
    | some (.str t) => .ok (pyStrip t)
    | some _ => .error .attributeError
    | none =>
      .error (.runtimeError ("Unexpected HF response: " ++
        strTake (json_dumps data) 300))
  | _ =>
    .error (.runtimeError ("Unexpected HF response: " ++
      strTake (json_dumps data) 300))

/-- HFInferenceClient.complete_chat: no input validation at all; the message
list, empty or not, is serialized to a ChatML prompt and sent. -/
def hf_complete_chat (cfg : HFConfig) (messages : List Message)
    (max_tokens : Option Int) (temperature : Rat)
    (s0 : NetState HFRequest) : Except PyErr String × NetState HFRequest :=
  let s := { s0 with calls := s0.calls + 1 }
  let prompt := qwen_chatml messages
  let req : HFRequest :=
    { url := hf_url cfg, headers := hf_headers cfg, inputs := prompt,
      max_new_tokens := resolve_max_tokens max_tokens cfg.default_max_tokens,
      temperature := temperature, return_full_text := false }
  match hf_post req s with
  | (.error e, s1) => (.error e, s1)
  | (.ok r, s1) =>
    match json_loads r.body with
    | none => (.error .jsonDecodeError, s1)
    | some data =>
      match hf_parse_response data with
      | .ok t => (.ok t, s1)
      | .error e => (.error e, s1)

/-! ## Personas (backend/agents/base.py, tech.py, hr.py, mentor.py) -/

structure PersonaConfig where
  name : String
  system_prompt : String
deriving DecidableEq, Repr

def TECH_CFG : PersonaConfig :=
  { name := "Senior Data Science Interviewer",
    system_prompt :=
      "You are a senior data science interviewer." ++
      "Focus on: problem framing, EDA, feature engineering, modeling, evaluation, experimentation, causal inference, time series, recommendation, NLP, ML ops/monitoring, fairness, and cost/latency trade-offs." ++
      "Ask concrete, scenario-driven questions with realistic constraints and numbers." ++
      "Write in direct, plain English." }

def HR_CFG : PersonaConfig :=
  { name := "HR Representative",
    system_prompt :=
      "You are an HR/behavioral interviewer. " ++
      "Assess communication, teamwork, conflict resolution, ownership, and learning. " ++
      "Favor STAR-style prompts (Situation, Task, Action, Result). Be succinct." }

def MENTOR_CFG : PersonaConfig :=
  { name := "Career Mentor",
    system_prompt :=
      "You are a supportive interview coach. " ++
      "Offer actionable tips, frameworks, and examples. " ++
      "Highlight one strength and one improvement area. Be encouraging and concise." }

/-- BaseAgent._messages. -/
def base_messages (pcfg : PersonaConfig) (user_content : String) : List Message :=
  [{ role := "system", content := pcfg.system_prompt },
   { role := "user", content := user_content }]

/-- BaseAgent.ask. -/
def base_ask (cfg : ClientConfig) (pcfg : PersonaConfig) (context : String)
    (s : NetState ChatRequest) : Except PyErr String × NetState ChatRequest :=
  let prompt :=
    "Given the candidate/context, ask exactly ONE interview question.\n" ++
    "Be concise (≤30 words). No preface, no numbering.\n\n" ++
    "Context:\n" ++ context
  match complete_chat cfg (base_messages pcfg prompt) (some 128) 0.7 none s with
  | (.ok t, s1) => (.ok (pyStrip t), s1)
  | (.error e, s1) => (.error e, s1)

/-- BaseAgent.feedback: blank or whitespace-only answers short-circuit with a
fixed message and no chat-client call. -/
def feedback (cfg : ClientConfig) (pcfg : PersonaConfig)
    (question answer : String) (s : NetState ChatRequest) :
    Except PyErr String × NetState ChatRequest :=
  if answer = "" ∨ pyStrip answer = "" then
    (.ok "Please Answer the question", s)
  else
    let prompt :=
      "Identify and express the positive points and Evaluate the candidate’s answer in 4 short bullets covering:\n" ++
      "1) positives, 2) structure, 3) technical depth/accuracy, 4) trade-offs.\n" ++
      "Each bullet ≤20 words. No preface text.\n\n" ++
      "Question: " ++ question ++ "\n" ++
      "Answer: " ++ answer
    match complete_chat cfg (base_messages pcfg prompt) (some 160) 0.6 none s with
    | (.ok t, s1) => (.ok (pyStrip t), s1)
    | (.error e, s1) => (.error e, s1)

/-- TechAgent._extract_difficulty. -/
def extract_difficulty (context : String) : String :=
  let lc := (pyLower context).toList
  if hasSub lc "[easy]".toList then "easy"
  else if hasSub lc "[hard]".toList then "hard"
  else "medium"

def hintKeys : List String := ["topic", "stack", "framework", "mlops", "domain", "data"]

/-- TechAgent._extract_hints: Python
lc.split(token, 1)[1].split()[0].strip(",;.") inside try/except (the IndexError
of [0] on an empty remainder skips the key). -/
def extract_hints (context : String) : List String :=
  let lc := (pyLower context).toList
  hintKeys.foldl (fun found key =>
    let token := (key ++ ":").toList
    if hasSub lc token then
      match (pySplit1 lc token).get? 1 with
      | none => found
      | some rest =>
        match (pySplitWs rest).get? 0 with
        | none => found
        | some w =>
          let seg := stripPunct w
          if seg.isEmpty then found else found ++ [key ++ "=" ++ String.mk seg]
    else found) []

/-- TechAgent.ask. -/
def tech_ask (cfg : ClientConfig) (context : String) (s : NetState ChatRequest) :
    Except PyErr String × NetState ChatRequest :=
  let difficulty := extract_difficulty context
  let hints := extract_hints context
  let hint_line := "Difficulty: " ++ difficulty ++ "." ++
    (if hints ≠ [] then " Hints: " ++ String.intercalate ", " hints ++ "." else "")
  let prompt :=
    "Ask exactly ONE data-science interview question that is concrete and scenario-based." ++
    "Target <30 words. No preface, no bullets, no numbering." ++
    "Choose ONE topic: problem framing, EDA, leakage, feature engineering, model selection, cross-validation, hyperparameter tuning, regularization, class imbalance," ++
    "evaluation metrics (AUC/PR-AUC/RMSE/MAE/logloss/recall@k), calibration, A/B testing (power/variance reduction), causal inference (DID/IV/PSM)," ++
    "time series (stationarity/seasonality/forecasting), recommendation (cold start/offline vs online metrics), NLP (embeddings/transformers/RAG eval)," ++
    "model monitoring (drift/perf), fairness, or cost/latency trade-offs." ++
    hint_line ++
    "Candidate/context:" ++ context
  match complete_chat cfg (base_messages TECH_CFG prompt) (some 128) 0.6 none s with
  | (.ok t, s1) => (.ok (pyStrip t), s1)
  | (.error e, s1) => (.error e, s1)

def scoreKeys : List String := ["depth", "correctness", "tradeoffs", "communication", "summary"]

/-- The literal dict returned by TechAgent.score when the try block raises. -/
def fallbackScore (raw : String) : List (String × Json) :=
  [("depth", .num "0"), ("correctness", .num "0"), ("tradeoffs", .num "0"),
   ("communication", .num "0"), ("summary", .str (strTake raw 120))]

/-- The parsing step of TechAgent.score: json.loads plus setdefault for each
key; a raw string that does not parse to a JSON object (setdefault only
exists on dicts) lands in the except branch. -/
def score_parse (raw : String) : List (String × Json) :=
  match json_loads raw with
  | some (.obj kvs) =>
    scoreKeys.foldl (fun d k =>
      setdefault d k (if k = "summary" then .str "" else .num "0")) kvs
  | _ => fallbackScore raw

/-- TechAgent.score. -/
def score (cfg : ClientConfig) (question answer : String)
    (s : NetState ChatRequest) :
    Except PyErr (List (String × Json)) × NetState ChatRequest :=
  let prompt :=
    "Score the answer on 1–5 for: depth, correctness, tradeoffs, communication." ++
    "Return ONLY compact JSON with keys: depth, correctness, tradeoffs, communication, summary." ++
    "Summary ≤20 words. No other text." ++
    "Question: " ++ question ++ " Answer: " ++ answer
  match complete_chat cfg (base_messages TECH_CFG prompt) (some 120) 0.0 none s with
  | (.ok t, s1) => (.ok (score_parse (pyStrip t)), s1)
  | (.error e, s1) => (.error e, s1)

/-! ## Orchestrator (backend/orchestrator.py) -/

/-- The keys of the persona registry built in Orchestrator.__init__, in
registration order. -/
def personaKeys : List String := ["tech", "hr", "mentor"]

/-- The mutable rotation state of the Orchestrator. -/
structure OrchState where
  order : List String
  turn : Nat
deriving DecidableEq, Repr

/-- The state set up by Orchestrator.__init__. -/
def initOrch : OrchState := { order := ["tech", "hr", "mentor"], turn := 0 }

/-- Orchestrator._next_persona_key: pick order[turn mod len(order)], then
advance the cursor (an empty order would make the modulo raise). -/
def next_persona_key (st : OrchState) : Except PyErr (String × OrchState) :=
  match st.order.get? (st.turn % st.order.length) with
  | some key => .ok (key, { st with turn := st.turn + 1 })
  | none => .error .zeroDivisionError

/-- Orchestrator.reset_rotation. -/
def reset_rotation (st : OrchState) : OrchState := { st with turn := 0 }

/-- Orchestrator.set_rotation: an empty order raises ValueError and an
unknown key raises KeyError, both before any mutation; on success the order
is replaced and the cursor reset to 0. -/
def set_rotation (st : OrchState) (order : List String) :
    Except PyErr Unit × OrchState :=
  if order.isEmpty then
    (.error (.valueError "Rotation order cannot be empty."), st)
  else
    match order.find? (fun k => ! personaKeys.contains k) with
    | some k => (.error (.keyError ("Unknown persona key in rotation: " ++ k)), st)
    | none => (.ok (), { order := order, turn := 0 })

/-- Orchestrator.list_personas. -/
def list_personas : List String := personaKeys

/-- Dispatch of self.personas[key].ask(context): TechAgent overrides ask,
HR and Mentor use the BaseAgent implementation with their own config. -/
def persona_ask (cfg : ClientConfig) (key : String) (context : String)
    (s : NetState ChatRequest) : Except PyErr String × NetState ChatRequest :=
  if key = "tech" then tech_ask cfg context s
  else if key = "hr" then base_ask cfg HR_CFG context s
  else if key = "mentor" then base_ask cfg MENTOR_CFG context s
  else (.error (.keyError key), s)

/-- Dispatch of self.personas[key].feedback: all personas share the
BaseAgent implementation. -/
def persona_feedback (cfg : ClientConfig) (key : String)
    (question answer : String) (s : NetState ChatRequest) :
    Except PyErr String × NetState ChatRequest :=
  if key = "tech" then feedback cfg TECH_CFG question answer s
  else if key = "hr" then feedback cfg HR_CFG question answer s
  else if key = "mentor" then feedback cfg MENTOR_CFG question answer s
  else (.error (.keyError key), s)

/-- Orchestrator.ask: the cursor advances in _next_persona_key before the
persona generates its question, so it advances even when that call fails. -/
def orch_ask (cfg : ClientConfig) (st : OrchState) (context : String)
    (s : NetState ChatRequest) :
    Except PyErr (String × String) × OrchState × NetState ChatRequest :=
  match next_persona_key st with
  | .error e => (.error e, st, s)
  | .ok (key, st1) =>
    match persona_ask cfg key context s with
    | (.error e, s1) => (.error e, st1, s1)
    | (.ok q, s1) => (.ok (key, q), st1, s1)

/-- Orchestrator.evaluate: looks the persona up (KeyError when unknown) and
never touches the rotation state. -/
def orch_evaluate (cfg : ClientConfig) (st : OrchState)
    (persona question answer : String) (s : NetState ChatRequest) :
    Except PyErr (String × String) × OrchState × NetState ChatRequest :=
  if personaKeys.contains persona then
    match persona_feedback cfg persona question answer s with
    | (.error e, s1) => (.error e, st, s1)
    | (.ok f, s1) => (.ok (persona, f), st, s1)
  else (.error (.keyError ("Unknown persona: " ++ persona)), st, s)

/-! ## Statement-level characterizations -/

/-- How _try_fallback_if_quota classifies a 429 body: the quota-fallback
trigger, the error-field-not-an-object crash, or anything else. -/
inductive QuotaCase where
  | quota
  | errNotObj
  | other
deriving DecidableEq, Repr

/-- The classification of a 429 response body, following the branch
structure of _try_fallback_if_quota. -/
def quota_body_case (body : String) : QuotaCase :=
  match json_loads body with
  | some (.obj kvs) =>
    match (jlookup "error" kvs).getD (.obj []) with
    | .obj ekvs =>
      match jlookup "code" ekvs with
      | some (.str c) => if c = "insufficient_quota" then .quota else .other
      | _ => .other
    | _ => .errNotObj
  | _ => .other

/-- Whether a raw model response parses as a JSON object (the only case in
which TechAgent.score can use dict.setdefault on the parsed value). -/
def parses_as_object (raw : String) : Bool :=
  match json_loads raw with
  | some (.obj _) => true
  | _ => false

/-- Modelled from the spec: hint extraction as the claim words it, one key at
a time — the first whitespace-delimited token following the first occurrence
of "key:", stripped of the characters , ; . from BOTH ends (this is the
amended reading; the code strips both ends). Used to compare formulations
with extract_hints. -/
def spec_hints (context : String) : List String :=
  let lc := (pyLower context).toList
  hintKeys.foldl (fun found key =>
    let token := (key ++ ":").toList
    match afterFirstSub lc token with
    | none => found
    | some rest =>
      match (rest.dropWhile isPySpace).takeWhile (fun c => ! isPySpace c) with
      | [] => found
      | w =>
        let seg := stripPunct w
        if seg.isEmpty then found else found ++ [key ++ "=" ++ String.mk seg]) []

/-- Modelled from the spec: hint extraction exactly as the claim words it,
with only TRAILING punctuation stripped. Used to exhibit where the claim
diverges from the code. -/
def spec_hints_trailing (context : String) : List String :=
  let lc := (pyLower context).toList
  hintKeys.foldl (fun found key =>
    let token := (key ++ ":").toList
    match afterFirstSub lc token with
    | none => found
    | some rest =>
      match (rest.dropWhile isPySpace).takeWhile (fun c => ! isPySpace c) with
      | [] => found
      | w =>
        let seg := stripTrailingPunct w
        if seg.isEmpty then found else found ++ [key ++ "=" ++ String.mk seg]) []

/-- Driver for the rotation scenarios: run n consecutive ask calls and
collect the persona key of each outcome ("ERR" for a failed ask). -/
def ask_keys : Nat → ClientConfig → OrchState → String → NetState ChatRequest → List String
  | 0, _, _, _, _ => []
  | n + 1, cfg, st, ctx, s =>
    match orch_ask cfg st ctx s with
    | (.ok (k, _), st1, s1) => k :: ask_keys n cfg st1 ctx s1
    | (.error _, st1, s1) => "ERR" :: ask_keys n cfg st1 ctx s1

/-! ## Shared concrete fixtures used by the theorems -/

/-- A fully configured primary and fallback client. -/
def cfg0 : ClientConfig :=
  { base_url := "https://p.example/v1", api_key := "pk", model := "pm",
    default_max_tokens := 128, timeout := 60, stream_default := false, org := "",
    fb_base_url := "https://f.example/v1", fb_api_key := "fk", fb_model := "fm" }

def hcfg0 : HFConfig :=
  { api_key := "hk", model := "Qwen/Qwen2.5-3B-Instruct",
    default_max_tokens := 512, timeout := 45 }

/-- A 200 body whose assistant text is "hello". -/
def okBody : String :=
  "\x7b\"choices\":[\x7b\"message\":\x7b\"content\":\"hello\"\x7d\x7d]\x7d"

/-- The 429 body of the fallback test in the spec. -/
def quotaBody : String := "\x7b\"error\":\x7b\"code\":\"insufficient_quota\"\x7d\x7d"

/-- A 200 body of the raw-inference endpoint whose generated text is "hello". -/
def hfOkBody : String := "[\x7b\"generated_text\": \"hello\"\x7d]"

/-- Fresh transport state over a given script. -/
def fresh (sc : List PostResult) : NetState ChatRequest :=
  { script := sc, log := [], calls := 0 }

def hfFresh (sc : List PostResult) : NetState HFRequest :=
  { script := sc, log := [], calls := 0 }

/-- Script of n successful chat completions answering "hello". -/
def okScript (n : Nat) : List PostResult := List.replicate n (.resp ⟨200, okBody⟩)

def msg0 : Message := { role := "user", content := "hi" }

/-! ## Helper lemmas -/

theorem doPost_calls {ρ : Type} (req : ρ) (s : NetState ρ) :
    ((doPost req s).2).calls = s.calls := by
  unfold doPost
  cases s.script <;> rfl

theorem post_once_calls (req : ChatRequest) (s : NetState ChatRequest) :
    ((post_once req s).2).calls = s.calls := by
  unfold post_once
  have h := doPost_calls req s
  rcases hp : doPost req s with ⟨pr, s1⟩
  rw [hp] at h
  cases pr with
  | netErr m => simpa using h
  | resp r =>
    by_cases hr : 500 ≤ r.status ∧ r.status < 600 <;> simp [hr] <;> exact h

theorem retryCall_calls {ρ α : Type} (fuel : Nat)
    (once : NetState ρ → AttemptResult α × NetState ρ)
    (honce : ∀ s, ((once s).2).calls = s.calls) (s : NetState ρ) :
    ((retryCall fuel once s).2).calls = s.calls := by
  induction fuel generalizing s with
  | zero => rfl
  | succ n ih =>
    unfold retryCall
    have h := honce s
    rcases ho : once s with ⟨ar, s1⟩
    rw [ho] at h
    cases ar with
    | ok a => simpa using h
    | perm e => simpa using h
    | transient m =>
      by_cases hn : n = 0
      · simp [hn]; exact h
      · simp only [hn, if_false]
        rw [ih s1]; exact h

theorem post_calls (req : ChatRequest) (s : NetState ChatRequest) :
    ((post req s).2).calls = s.calls :=
  retryCall_calls 4 (post_once req) (post_once_calls req) s

theorem try_fallback_calls (cfg : ClientConfig) (r : HttpResponse)
    (messages : List Message) (mt : Int) (temp : Rat) (s : NetState ChatRequest) :
    ((try_fallback_if_quota cfg r messages mt temp s).2).calls = s.calls := by
  unfold try_fallback_if_quota
  by_cases h1 : r.status ≠ 429
  · simp [h1]
  · simp only [h1, if_false]
    by_cases h2 : ¬ fbConfigured cfg = true
    · simp [h2]
    · simp only [h2, if_false]
      rcases json_loads r.body with _ | j
      · rfl
      · cases j with
        | obj kvs =>
          simp only
          rcases (jlookup "error" kvs).getD (.obj []) with _ | b | l | t | xs | ekvs
          · rfl
          · rfl
          · rfl
          · rfl
          · rfl
          · simp only
            rcases jlookup "code" ekvs with _ | c
            · rfl
            · cases c with
              | str cs =>
                by_cases hc : cs = "insufficient_quota"
                · simp only [hc, if_pos rfl]
                  exact post_calls _ s
                · simp [hc]
              | null => rfl
              | bool b => rfl
              | num l => rfl
              | arr xs => rfl
              | obj o => rfl
        | null => rfl
        | bool b => rfl
        | num l => rfl
        | str t => rfl
        | arr xs => rfl

/-- The streaming flag is always forced to non-streaming before sending. -/
theorem stream_forced (b : Bool) : (if b = true then false else b) = false := by
  cases b <;> rfl

/-- complete_chat makes exactly one chat-client invocation per call. -/
theorem complete_chat_calls (cfg : ClientConfig) (messages : List Message)
    (mt : Option Int) (temp : Rat) (stream : Option Bool) (s : NetState ChatRequest) :
    ((complete_chat cfg messages mt temp stream s).2).calls = s.calls + 1 := by
  cases messages with
  | nil => rfl
  | cons m ms =>
    unfold complete_chat
    simp only [List.isEmpty_cons, Bool.false_eq_true, if_false, stream_forced]
    split
    case _ e s1 hp =>
      have h1 := congrArg (fun p => p.2.calls) hp
      simp only at h1 ⊢
      rw [post_calls] at h1
      have h1a : s.calls + 1 = s1.calls := h1
      omega
    case _ r s1 hp =>
      have h1 := congrArg (fun p => p.2.calls) hp
      simp only at h1
      rw [post_calls] at h1
      have h1a : s.calls + 1 = s1.calls := h1
      clear h1
      split
      case _ e s2 hf =>
        have h2 := congrArg (fun p => p.2.calls) hf
        simp only at h2 ⊢
        rw [try_fallback_calls] at h2
        omega
      case _ r2 s2 hf =>
        have h2 := congrArg (fun p => p.2.calls) hf
        simp only at h2
        rw [try_fallback_calls] at h2
        split
        · simp only; omega
        · split
          · simp only; omega
          · split <;> (simp only; omega)

/-! ## Claim theorems -/

/-- C3: every ask call selects the persona at index cursor mod length of the
rotation order and increments the cursor; evaluate never changes the rotation
state; with the default order tech, hr, mentor, four consecutive ask calls
return tech, hr, mentor, tech, and reset_rotation sets the cursor to 0 so the
next ask returns tech again. -/
theorem C3_rotation :
    (∀ st k, st.order.get? (st.turn % st.order.length) = some k →
      next_persona_key st = .ok (k, { order := st.order, turn := st.turn + 1 })) ∧
    (∀ cfg st ctx s k, st.order.get? (st.turn % st.order.length) = some k →
      (orch_ask cfg st ctx s).2.1 = { order := st.order, turn := st.turn + 1 } ∧
      ∀ q, (orch_ask cfg st ctx s).1 = .ok q → q.1 = k) ∧
    (∀ cfg st p q a s, (orch_evaluate cfg st p q a s).2.1 = st) ∧
    (∀ st, reset_rotation st = { order := st.order, turn := 0 }) ∧
    ask_keys 4 cfg0 initOrch "" (fresh (okScript 4)) = ["tech", "hr", "mentor", "tech"] ∧
    ask_keys 1 cfg0 (reset_rotation { order := ["tech", "hr", "mentor"], turn := 7 }) ""
      (fresh (okScript 1)) = ["tech"] := by
  refine ⟨?_, ?_, ?_, ?_, by rfl, by rfl⟩
  · intro st k hk
    unfold next_persona_key
    rw [hk]
  · intro cfg st ctx s k hk
    have hnext : next_persona_key st = .ok (k, { order := st.order, turn := st.turn + 1 }) := by
      unfold next_persona_key; rw [hk]
    unfold orch_ask
    rw [hnext]
    dsimp only
    rcases hpa : persona_ask cfg k ctx s with ⟨res, s1⟩
    cases res with
    | error e => exact ⟨rfl, by intro q hq; simp at hq⟩
    | ok v => exact ⟨rfl, by intro q hq; injection hq with h1; rw [← h1]⟩
  · intro cfg st p q a s
    unfold orch_evaluate
    by_cases hp : personaKeys.contains p = true
    · rw [if_pos hp]
      rcases hpf : persona_feedback cfg p q a s with ⟨res, s1⟩
      cases res <;> rfl
    · rw [if_neg hp]
  · intro st
    rfl

/-- C3 witness: at cursor 4 over the default order, the next persona is hr
(index 4 mod 3 = 1) and the cursor advances to 5. -/
theorem C3_rotation_witness :
    next_persona_key { order := ["tech", "hr", "mentor"], turn := 4 } =
      .ok ("hr", { order := ["tech", "hr", "mentor"], turn := 5 }) :=
  C3_rotation.1 { order := ["tech", "hr", "mentor"], turn := 4 } "hr" (by rfl)

/-- C4: set_rotation rejects an empty order with the ValueError and an order
containing an unregistered key with a KeyError, both leaving order and cursor
unchanged; a non-empty order of registered keys replaces the order and resets
the cursor to 0. -/
theorem C4_set_rotation :
    (∀ st, set_rotation st [] =
      (.error (.valueError "Rotation order cannot be empty."), st)) ∧
    (∀ st order, (∃ k, k ∈ order ∧ personaKeys.contains k = false) →
      ∃ m, set_rotation st order = (.error (.keyError m), st)) ∧
    (∀ st order, order ≠ [] → (∀ k ∈ order, personaKeys.contains k = true) →
      set_rotation st order = (.ok (), { order := order, turn := 0 })) := by
  refine ⟨fun st => rfl, ?_, ?_⟩
  · intro st order hex
    rcases hex with ⟨k, hmem, hk⟩
    have hne : order ≠ [] := by
      intro h; subst h; simp at hmem
    unfold set_rotation
    rw [if_neg (by simp [List.isEmpty_iff, hne])]
    have hsome : (order.find? (fun k => ! personaKeys.contains k)).isSome := by
      rw [List.find?_isSome]
      exact ⟨k, hmem, by rw [hk]; rfl⟩
    rcases Option.isSome_iff_exists.mp hsome with ⟨m, hm⟩
    rw [hm]
    exact ⟨_, rfl⟩
  · intro st order hne hall
    unfold set_rotation
    rw [if_neg (by simp [List.isEmpty_iff, hne])]
    rw [List.find?_eq_none.mpr (by intro x hx; rw [hall x hx]; decide)]

/-- C4 witness: the empty order and an order with the unregistered key boss
are rejected without touching the state at cursor 3, and a valid order is
installed with the cursor reset. -/
theorem C4_set_rotation_witness :
    set_rotation { order := ["hr"], turn := 3 } [] =
      (.error (.valueError "Rotation order cannot be empty."), { order := ["hr"], turn := 3 }) ∧
    (∃ m, set_rotation { order := ["hr"], turn := 3 } ["tech", "boss"] =
      (.error (.keyError m), { order := ["hr"], turn := 3 })) ∧
    set_rotation { order := ["hr"], turn := 3 } ["tech", "tech", "mentor"] =
      (.ok (), { order := ["tech", "tech", "mentor"], turn := 0 }) :=
  ⟨C4_set_rotation.1 _,
   C4_set_rotation.2.1 _ _ ⟨"boss", by decide, by decide⟩,
   C4_set_rotation.2.2 _ _ (by decide) (by decide)⟩

/-- C10: orch_ask advances the rotation cursor before the persona generates
its question, so even an ask whose chat-client call fails consumes the
rotation turn; concretely, with an empty transport script the first ask fails
with the network error after exhausted retries, the cursor still moves from 0
to 1, and the next ask selects hr. -/
theorem C10_cursor_advances_even_on_failure :
    (∀ cfg st ctx s, st.order ≠ [] →
      (orch_ask cfg st ctx s).2.1.turn = st.turn + 1) ∧
    (orch_ask cfg0 initOrch "" (fresh [])).1 =
      .error (.httpError "Network error: connection refused") ∧
    (orch_ask cfg0 initOrch "" (fresh [])).2.1.turn = 1 ∧
    (orch_ask cfg0 (orch_ask cfg0 initOrch "" (fresh [])).2.1 ""
      (fresh (okScript 1))).1 = .ok ("hr", "hello") := by
  refine ⟨?_, by rfl, by rfl, by rfl⟩
  intro cfg st ctx s hne
  have hlt : st.turn % st.order.length < st.order.length :=
    Nat.mod_lt _ (List.length_pos.mpr hne)
  have hk := List.get?_eq_get hlt
  unfold orch_ask next_persona_key
  rw [hk]
  dsimp only
  rcases hpa : persona_ask cfg (st.order.get ⟨st.turn % st.order.length, hlt⟩) ctx s
    with ⟨res, s1⟩
  cases res <;> rfl

/-- C10 witness: the general cursor statement applied to the default state
(order tech, hr, mentor is nonempty) with an empty transport script. -/
theorem C10_cursor_witness :
    (orch_ask cfg0 initOrch "" (fresh [])).2.1.turn = 0 + 1 :=
  C10_cursor_advances_even_on_failure.1 cfg0 initOrch "" (fresh []) (by decide)

/-- C6: for a blank or whitespace-only answer, feedback returns the fixed
prompt-to-answer text with the transport state untouched (zero chat-client
calls, zero network requests); for any other answer exactly one chat-client
call is made. -/
theorem C6_feedback_short_circuit :
    (∀ cfg pcfg q a s, pyStrip a = "" →
      feedback cfg pcfg q a s = (.ok "Please Answer the question", s)) ∧
    (∀ cfg pcfg q a s, pyStrip a ≠ "" →
      ((feedback cfg pcfg q a s).2).calls = s.calls + 1) := by
  constructor
  · intro cfg pcfg q a s h
    unfold feedback
    rw [if_pos (Or.inr h)]
  · intro cfg pcfg q a s h
    have ha : ¬ (a = "" ∨ pyStrip a = "") := by
      rintro (h1 | h1)
      · subst h1; exact h rfl
      · exact h h1
    unfold feedback
    rw [if_neg ha]
    dsimp only
    split
    all_goals
      rename_i s1 heq
      have h2 := congrArg (fun p => p.2.calls) heq
      simp only at h2
      rw [complete_chat_calls] at h2
      exact h2.symm

/-- C6 witness: a whitespace-only answer returns the fixed text with the
transport untouched, and a real answer makes exactly one chat-client call. -/
theorem C6_feedback_witness :
    feedback cfg0 TECH_CFG "q" "   " (fresh (okScript 1)) =
      (.ok "Please Answer the question", fresh (okScript 1)) ∧
    ((feedback cfg0 TECH_CFG "q" "real answer" (fresh (okScript 1))).2).calls = 0 + 1 :=
  ⟨C6_feedback_short_circuit.1 cfg0 TECH_CFG "q" "   " (fresh (okScript 1)) (by decide),
   C6_feedback_short_circuit.2 cfg0 TECH_CFG "q" "real answer" (fresh (okScript 1)) (by decide)⟩

/-- C5 counterexample: the raw-inference client does not validate its input:
complete_chat on the empty message list raises no InvalidInput error and
sends one network request (built from the empty ChatML prompt), so the claim
that both transport variants fail with InvalidInput before any network call
on empty input is false for this variant. -/
theorem C5_counterexample :
    (hf_complete_chat hcfg0 [] none 0.7 (hfFresh [.resp ⟨200, hfOkBody⟩])).1 = .ok "hello" ∧
    ((hf_complete_chat hcfg0 [] none 0.7 (hfFresh [.resp ⟨200, hfOkBody⟩])).2).log.length = 1 :=
  ⟨rfl, rfl⟩

/-- C5 amended: the OpenAI-compatible client rejects an empty message list
with the ValueError before any network activity (script and log untouched);
the raw-inference client performs no such validation and issues a request
even for the empty message list. -/
theorem C5_empty_messages :
    (∀ cfg mt temp stream s, complete_chat cfg [] mt temp stream s =
      (.error (.valueError "messages must be a non-empty list of {role, content} dicts"),
       { s with calls := s.calls + 1 })) ∧
    (∀ cfg mt temp,
      (hf_complete_chat cfg [] mt temp (hfFresh [.resp ⟨200, hfOkBody⟩])).1 = .ok "hello" ∧
      ((hf_complete_chat cfg [] mt temp (hfFresh [.resp ⟨200, hfOkBody⟩])).2).log.length = 1) :=
  ⟨fun cfg mt temp stream s => rfl, fun cfg mt temp => ⟨rfl, rfl⟩⟩

/-! ## Score parsing lemmas (C7) -/

theorem jlookup_append_some {k : String} {d : List (String × Json)} {v : Json}
    (e : List (String × Json)) (h : jlookup k d = some v) :
    jlookup k (d ++ e) = some v := by
  induction d with
  | nil => simp [jlookup] at h
  | cons p rest ih =>
    rcases p with ⟨k2, v2⟩
    rw [List.cons_append]
    simp only [jlookup] at h ⊢
    by_cases hk : k2 = k
    · simpa [hk] using h
    · rw [if_neg hk] at h ⊢
      exact ih h

theorem jlookup_append_none {k : String} {d : List (String × Json)}
    (e : List (String × Json)) (h : jlookup k d = none) :
    jlookup k (d ++ e) = jlookup k e := by
  induction d with
  | nil => rfl
  | cons p rest ih =>
    rcases p with ⟨k2, v2⟩
    rw [List.cons_append]
    simp only [jlookup] at h ⊢
    by_cases hk : k2 = k
    · simp [hk] at h
    · rw [if_neg hk] at h ⊢
      exact ih h

theorem any_key_eq_isSome (k : String) (d : List (String × Json)) :
    (d.any (fun p => p.1 = k)) = (jlookup k d).isSome := by
  induction d with
  | nil => rfl
  | cons p rest ih =>
    rcases p with ⟨k2, v2⟩
    unfold jlookup
    by_cases hk : k2 = k
    · simp [hk]
    · simp [hk, ih]

/-- setdefault keeps an existing entry for k. -/
theorem jlookup_setdefault_self (k : String) (d : List (String × Json)) (v : Json) :
    jlookup k (setdefault d k v) = some ((jlookup k d).getD v) := by
  unfold setdefault
  rw [any_key_eq_isSome]
  cases h : jlookup k d with
  | some v0 => simp [h]
  | none =>
    simp only [h, Option.isSome_none, Bool.false_eq_true, if_false, Option.getD_none]
    rw [jlookup_append_none _ h]
    simp [jlookup]

/-- setdefault for another key does not change the lookup of k. -/
theorem jlookup_setdefault_other {k k2 : String} (hkk : k2 ≠ k)
    (d : List (String × Json)) (v : Json) :
    jlookup k (setdefault d k2 v) = jlookup k d := by
  unfold setdefault
  by_cases h : d.any (fun p => p.1 = k2)
  · rw [if_pos h]
  · rw [if_neg h]
    cases hd : jlookup k d with
    | some v0 => exact jlookup_append_some _ hd
    | none =>
      rw [jlookup_append_none _ hd]
      simp [jlookup, hkk]

/-- C7 counterexample: the raw response "3" parses as JSON (the number 3),
so the claim predicts the missing summary defaults to the empty string; the
code instead lands in the except branch (setdefault does not exist on an
int) and fills summary with the truncated raw text "3". -/
theorem C7_score_counterexample :
    json_loads "3" = some (.num "3") ∧
    (score cfg0 "q" "a"
      (fresh [.resp ⟨200, "\x7b\"choices\":[\x7b\"message\":\x7b\"content\":\"3\"\x7d\x7d]\x7d"⟩])).1 =
      .ok (fallbackScore "3") ∧
    jlookup "summary" (score_parse "3") = some (.str "3") ∧
    ¬ jlookup "summary" (score_parse "3") = some (.str "") := by
  refine ⟨rfl, rfl, rfl, ?_⟩
  intro h
  rw [show jlookup "summary" (score_parse "3") = some (.str "3") from rfl] at h
  injection h with h1
  injection h1 with h2
  exact absurd h2 (by decide)

/-- C7 amended: score never fails on response content: when the response
parses as a JSON object, each of the four numeric fields missing from it
defaults to 0 and a missing summary defaults to the empty string (present
fields are preserved); when the response is anything else — non-object JSON
(such as the bare number 3) or unparseable text — score returns all four
numeric fields 0 and summary equal to the (stripped) raw response truncated
to at most 120 characters; concretely, a transport answering the non-JSON
string "not json" yields the all-zero record with summary "not json". -/
theorem C7_score_degrades_gracefully :
    (∀ raw kvs, json_loads raw = some (.obj kvs) →
      (∀ k, k ∈ ["depth", "correctness", "tradeoffs", "communication"] →
        jlookup k (score_parse raw) = some ((jlookup k kvs).getD (.num "0"))) ∧
      jlookup "summary" (score_parse raw) = some ((jlookup "summary" kvs).getD (.str ""))) ∧
    (∀ raw, parses_as_object raw = false → score_parse raw = fallbackScore raw) ∧
    (score cfg0 "q" "a"
      (fresh [.resp ⟨200, "\x7b\"choices\":[\x7b\"message\":\x7b\"content\":\"not json\"\x7d\x7d]\x7d"⟩])).1 =
      .ok (fallbackScore "not json") := by
  refine ⟨?_, ?_, rfl⟩
  · intro raw kvs h
    have hsp : score_parse raw =
        setdefault (setdefault (setdefault (setdefault (setdefault kvs
          "depth" (.num "0")) "correctness" (.num "0")) "tradeoffs" (.num "0"))
          "communication" (.num "0")) "summary" (.str "") := by
      unfold score_parse
      rw [h]
      rfl
    constructor
    · intro k hk
      fin_cases hk
      · rw [hsp, jlookup_setdefault_other (by decide),
          jlookup_setdefault_other (by decide), jlookup_setdefault_other (by decide),
          jlookup_setdefault_other (by decide), jlookup_setdefault_self]
      · rw [hsp, jlookup_setdefault_other (by decide),
          jlookup_setdefault_other (by decide), jlookup_setdefault_other (by decide),
          jlookup_setdefault_self, jlookup_setdefault_other (by decide)]
      · rw [hsp, jlookup_setdefault_other (by decide),
          jlookup_setdefault_other (by decide), jlookup_setdefault_self,
          jlookup_setdefault_other (by decide), jlookup_setdefault_other (by decide)]
      · rw [hsp, jlookup_setdefault_other (by decide), jlookup_setdefault_self,
          jlookup_setdefault_other (by decide), jlookup_setdefault_other (by decide),
          jlookup_setdefault_other (by decide)]
    · rw [hsp, jlookup_setdefault_self, jlookup_setdefault_other (by decide),
        jlookup_setdefault_other (by decide), jlookup_setdefault_other (by decide),
        jlookup_setdefault_other (by decide)]
  · intro raw h
    unfold parses_as_object at h
    unfold score_parse
    cases hj : json_loads raw with
    | none => rfl
    | some j =>
      rw [hj] at h
      cases j with
      | obj kvs => simp at h
      | null => rfl
      | bool b => rfl
      | num l => rfl
      | str t => rfl
      | arr xs => rfl

/-- C7 witness: a parsed object with only depth present keeps depth and
fills the other numeric fields with 0 and summary with the empty string. -/
theorem C7_score_witness :
    jlookup "depth" (score_parse "\x7b\"depth\": 4\x7d") = some ((jlookup "depth" [("depth", Json.num "4")]).getD (.num "0")) ∧
    jlookup "correctness" (score_parse "\x7b\"depth\": 4\x7d") = some ((jlookup "correctness" [("depth", Json.num "4")]).getD (.num "0")) ∧
    jlookup "summary" (score_parse "\x7b\"depth\": 4\x7d") = some ((jlookup "summary" [("depth", Json.num "4")]).getD (.str "")) ∧
    score_parse "oops" = fallbackScore "oops" :=
  ⟨(C7_score_degrades_gracefully.1 "\x7b\"depth\": 4\x7d" [("depth", Json.num "4")] (by rfl)).1
      "depth" (by decide),
   (C7_score_degrades_gracefully.1 "\x7b\"depth\": 4\x7d" [("depth", Json.num "4")] (by rfl)).1
      "correctness" (by decide),
   (C7_score_degrades_gracefully.1 "\x7b\"depth\": 4\x7d" [("depth", Json.num "4")] (by rfl)).2,
   C7_score_degrades_gracefully.2.1 "oops" (by rfl)⟩

/-! ## Hint extraction lemmas (C8) -/

theorem pySplit1_ne_nil (s sep : List Char) : pySplit1 s sep ≠ [] := by
  induction s with
  | nil => simp [pySplit1]
  | cons c t ih =>
    unfold pySplit1
    by_cases hp : sep.isPrefixOf (c :: t) = true
    · simp [hp]
    · simp only [hp, if_false]
      cases hs : pySplit1 t sep with
      | nil => simp
      | cons b rest => simp

/-- When the separator occurs, Python split(sep, 1)[1] is the suffix after
its first occurrence; when it does not occur there is no such suffix. -/
theorem split1_after (needle : List Char) (hne : needle ≠ []) (hay : List Char) :
    (hasSub hay needle = true →
      (pySplit1 hay needle).get? 1 = afterFirstSub hay needle) ∧
    (hasSub hay needle = false → afterFirstSub hay needle = none) := by
  induction hay with
  | nil =>
    refine ⟨fun h => ?_, fun _ => ?_⟩
    · unfold hasSub at h
      simp [List.isEmpty_iff, hne] at h
    · unfold afterFirstSub
      rw [if_neg (by simp [List.isEmpty_iff, hne])]
  | cons c t ih =>
    by_cases hp : needle.isPrefixOf (c :: t) = true
    · refine ⟨fun _ => ?_, fun h => ?_⟩
      · unfold pySplit1 afterFirstSub
        rw [if_pos hp, if_pos hp]
        rfl
      · exfalso
        unfold hasSub at h
        simp [hp] at h
    · have hpf : needle.isPrefixOf (c :: t) = false := Bool.eq_false_iff.mpr hp
      refine ⟨fun h => ?_, fun h => ?_⟩
      · have ht : hasSub t needle = true := by
          unfold hasSub at h
          simpa [hpf] using h
        unfold pySplit1 afterFirstSub
        rw [if_neg hp, if_neg hp]
        rw [← ih.1 ht]
        cases hs : pySplit1 t needle with
        | nil => exact absurd hs (pySplit1_ne_nil t needle)
        | cons b rest => rfl
      · have ht : hasSub t needle = false := by
          unfold hasSub at h
          simpa [hpf] using h
        unfold afterFirstSub
        rw [if_neg hp]
        exact ih.2 ht

/-- The head of Python split() is the first whitespace-delimited word:
leading whitespace dropped, then the longest non-whitespace prefix. -/
theorem pySplitWs_head (s : List Char) :
    (pySplitWs s).get? 0 =
      (match (s.dropWhile isPySpace).takeWhile (fun c => ! isPySpace c) with
       | [] => none
       | w => some w) := by
  induction s with
  | nil => rfl
  | cons c t ih =>
    by_cases hc : isPySpace c = true
    · rw [show pySplitWs (c :: t) = pySplitWs t from by simp [pySplitWs, hc]]
      rw [List.dropWhile_cons]
      simp only [hc, if_true]
      exact ih
    · have hcf : isPySpace c = false := Bool.eq_false_iff.mpr hc
      have hdrop : (c :: t).dropWhile isPySpace = c :: t := by
        rw [List.dropWhile_cons]
        simp [hcf]
      have htake : (c :: t).takeWhile (fun x => ! isPySpace x) =
          c :: t.takeWhile (fun x => ! isPySpace x) := by
        rw [List.takeWhile_cons]
        simp [hcf]
      rw [hdrop, htake]
      rw [show pySplitWs (c :: t) = consWord c t (pySplitWs t) from by
        simp [pySplitWs, hcf]]
      cases t with
      | nil => rfl
      | cons d t2 =>
        by_cases hd : isPySpace d = true
        · have hrhs : (d :: t2).takeWhile (fun x => ! isPySpace x) = [] := by
            rw [List.takeWhile_cons]
            simp [hd]
          rw [hrhs]
          cases hr : pySplitWs (d :: t2) with
          | nil => rfl
          | cons w ws =>
            unfold consWord
            simp [hd]
        · have hdf : isPySpace d = false := Bool.eq_false_iff.mpr hd
          have hdropd : (d :: t2).dropWhile isPySpace = d :: t2 := by
            rw [List.dropWhile_cons]
            simp [hdf]
          have htaked : (d :: t2).takeWhile (fun x => ! isPySpace x) =
              d :: t2.takeWhile (fun x => ! isPySpace x) := by
            rw [List.takeWhile_cons]
            simp [hdf]
          rw [hdropd, htaked] at ih
          cases hr : pySplitWs (d :: t2) with
          | nil =>
            rw [hr] at ih
            simp [List.get?] at ih
          | cons w ws =>
            rw [hr] at ih
            have hw : w = d :: t2.takeWhile (fun x => ! isPySpace x) := by
              simpa [List.get?] using ih
            unfold consWord
            simp [hd, hw, htaked]

theorem foldl_congr_fun {α β : Type} (f g : α → β → α) (l : List β) :
    ∀ (init : α), (∀ a b, b ∈ l → f a b = g a b) →
      l.foldl f init = l.foldl g init := by
  induction l with
  | nil => intro init _; rfl
  | cons x xs ih =>
    intro init H
    simp only [List.foldl_cons]
    rw [H init x (by simp)]
    exact ih _ (fun a b hb => H a b (by simp [hb]))

/-- The code hint extraction coincides with the spec-worded formulation
(first whitespace-delimited token following the first occurrence of the key
and colon, stripped of the characters , ; . from both ends). -/
theorem extract_hints_eq_spec_hints (ctx : String) :
    extract_hints ctx = spec_hints ctx := by
  unfold extract_hints spec_hints
  apply foldl_congr_fun
  intro found key _
  dsimp only
  have hne : (key ++ ":").toList ≠ [] := by
    show (key ++ ":").data ≠ []
    rw [String.data_append]
    simp
  by_cases hsub : hasSub (pyLower ctx).toList (key ++ ":").toList = true
  · rw [if_pos hsub, (split1_after (key ++ ":").toList hne (pyLower ctx).toList).1 hsub]
    cases ha : afterFirstSub (pyLower ctx).toList (key ++ ":").toList with
    | none => rfl
    | some rest =>
      dsimp only
      rw [pySplitWs_head rest]
      cases ht : (rest.dropWhile isPySpace).takeWhile (fun c => ! isPySpace c) with
      | nil => rfl
      | cons d w2 => rfl
  · have hf : hasSub (pyLower ctx).toList (key ++ ":").toList = false :=
      Bool.eq_false_iff.mpr hsub
    rw [if_neg hsub,
      (split1_after (key ++ ":").toList hne (pyLower ctx).toList).2 hf]

/-- C8 counterexample: in the context "topic:,ml x" the token after the
colon up to the next whitespace is ",ml"; only-trailing punctuation
stripping (the claim text) keeps it as ",ml", but the code strips both ends
and extracts the hint topic=ml, so the claim as stated mispredicts the
extracted hint. -/
theorem C8_hints_counterexample :
    extract_hints "topic:,ml x" = ["topic=ml"] ∧
    spec_hints_trailing "topic:,ml x" = ["topic=,ml"] ∧
    ("topic=ml" : String) ≠ "topic=,ml" := by
  refine ⟨by decide, by decide, by decide⟩

/-- C8 amended: difficulty extraction scans the lowered context for the tags
[easy] and [hard] ([easy] taking precedence) and defaults to medium; hint
extraction takes, for each key of topic, stack, framework, mlops, domain,
data, the first whitespace-delimited token after the first occurrence of
"key:", stripped of the characters , ; . from both leading and trailing
positions; on the context of the spec example difficulty resolves to hard
and the hints are topic=causal and domain=healthcare. -/
theorem C8_difficulty_and_hints :
    (∀ ctx, hasSub (pyLower ctx).toList "[easy]".toList = true →
      extract_difficulty ctx = "easy") ∧
    (∀ ctx, hasSub (pyLower ctx).toList "[easy]".toList = false →
      hasSub (pyLower ctx).toList "[hard]".toList = true →
      extract_difficulty ctx = "hard") ∧
    (∀ ctx, hasSub (pyLower ctx).toList "[easy]".toList = false →
      hasSub (pyLower ctx).toList "[hard]".toList = false →
      extract_difficulty ctx = "medium") ∧
    (∀ ctx, extract_hints ctx = spec_hints ctx) ∧
    extract_difficulty "[hard] topic:causal domain:healthcare" = "hard" ∧
    extract_hints "[hard] topic:causal domain:healthcare" =
      ["topic=causal", "domain=healthcare"] := by
  refine ⟨?_, ?_, ?_, extract_hints_eq_spec_hints, by decide, by decide⟩
  · intro ctx h
    unfold extract_difficulty
    dsimp only
    rw [h]
    rfl
  · intro ctx h1 h2
    unfold extract_difficulty
    dsimp only
    rw [h1, h2]
    rfl
  · intro ctx h1 h2
    unfold extract_difficulty
    dsimp only
    rw [h1, h2]
    rfl

/-- C8 witness: the three difficulty cases at concrete contexts. -/
theorem C8_difficulty_witness :
    extract_difficulty "please [EASY] one" = "easy" ∧
    extract_difficulty "a [hard] one" = "hard" ∧
    extract_difficulty "no tags at all" = "medium" :=
  ⟨C8_difficulty_and_hints.1 "please [EASY] one" (by decide),
   C8_difficulty_and_hints.2.1 "a [hard] one" (by decide) (by decide),
   C8_difficulty_and_hints.2.2.1 "no tags at all" (by decide) (by decide)⟩

/-! ## Transport log lemmas (C1, C2, C9) -/

theorem post_once_log (req : ChatRequest) (s : NetState ChatRequest) :
    ((post_once req s).2).log = s.log ++ [req] := by
  unfold post_once doPost
  cases hs : s.script with
  | nil => rfl
  | cons r t =>
    cases r with
    | netErr m => rfl
    | resp r2 => dsimp only; split <;> rfl

theorem retryCall_log {ρ α : Type} (fuel : Nat)
    (once : NetState ρ → AttemptResult α × NetState ρ) (req : ρ)
    (honce : ∀ s, ((once s).2).log = s.log ++ [req]) (s : NetState ρ) :
    ∃ n, ((retryCall fuel once s).2).log = s.log ++ List.replicate n req ∧
      (1 ≤ fuel → 1 ≤ n) := by
  induction fuel generalizing s with
  | zero => exact ⟨0, by simp [retryCall], by omega⟩
  | succ m ih =>
    unfold retryCall
    rcases ho : once s with ⟨ar, s1⟩
    have h1 := honce s
    rw [ho] at h1
    cases ar with
    | ok a => exact ⟨1, by simpa using h1, fun _ => le_refl 1⟩
    | perm e => exact ⟨1, by simpa using h1, fun _ => le_refl 1⟩
    | transient msg =>
      by_cases hm : m = 0
      · subst hm
        exact ⟨1, by simpa using h1, fun _ => le_refl 1⟩
      · rcases ih s1 with ⟨n, hn, _⟩
        refine ⟨n + 1, ?_, fun _ => by omega⟩
        have h1a : s1.log = s.log ++ [req] := h1
        simp [hm, hn, h1a, List.replicate_succ]

theorem post_log (req : ChatRequest) (s : NetState ChatRequest) :
    ∃ n, 1 ≤ n ∧ ((post req s).2).log = s.log ++ List.replicate n req := by
  rcases retryCall_log 4 (post_once req) req (post_once_log req) s with ⟨n, hn, hge⟩
  exact ⟨n, hge (by omega), hn⟩

theorem replicate_append_head {α : Type} (a : α) (l : List α) {n : Nat}
    (hn : 1 ≤ n) : (List.replicate n a ++ l).head? = some a := by
  cases n with
  | zero => omega
  | succ m => rfl

/-- Every chat request the retry loop logs (starting from an empty log) is
the single request it was given, so the head of the log is that request. -/
theorem post_log_head (req : ChatRequest) (script : List PostResult) (c : Nat)
    (l2 : List ChatRequest) :
    (((post req ⟨script, [], c⟩).2).log ++ l2).head? = some req := by
  rcases post_log req ⟨script, [], c⟩ with ⟨n, h1, hlog⟩
  rw [hlog]
  simp only [List.nil_append]
  exact replicate_append_head req l2 h1

theorem try_fallback_log (cfg : ClientConfig) (r : HttpResponse)
    (messages : List Message) (mt : Int) (temp : Rat) (s : NetState ChatRequest) :
    ∃ l, ((try_fallback_if_quota cfg r messages mt temp s).2).log = s.log ++ l := by
  unfold try_fallback_if_quota
  by_cases h1 : r.status ≠ 429
  · exact ⟨[], by simp [h1]⟩
  · rw [if_neg h1]
    by_cases h2 : ¬ fbConfigured cfg = true
    · exact ⟨[], by simp [h2]⟩
    · rw [if_neg h2]
      cases json_loads r.body with
      | none => exact ⟨[], by simp⟩
      | some j =>
        cases j with
        | obj kvs =>
          dsimp only
          cases (jlookup "error" kvs).getD (.obj []) with
          | obj ekvs =>
            dsimp only
            cases jlookup "code" ekvs with
            | none => exact ⟨[], by simp⟩
            | some c =>
              cases c with
              | str cs =>
                by_cases hc : cs = "insufficient_quota"
                · dsimp only
                  rw [if_pos hc]
                  rcases post_log _ s with ⟨n, _, hlog⟩
                  exact ⟨List.replicate n _, hlog⟩
                · exact ⟨[], by simp [hc]⟩
              | null => exact ⟨[], by simp⟩
              | bool b => exact ⟨[], by simp⟩
              | num l => exact ⟨[], by simp⟩
              | arr xs => exact ⟨[], by simp⟩
              | obj o => exact ⟨[], by simp⟩
          | null => exact ⟨[], by simp⟩
          | bool b => exact ⟨[], by simp⟩
          | num l => exact ⟨[], by simp⟩
          | str t => exact ⟨[], by simp⟩
          | arr xs => exact ⟨[], by simp⟩
        | null => exact ⟨[], by simp⟩
        | bool b => exact ⟨[], by simp⟩
        | num l => exact ⟨[], by simp⟩
        | str t => exact ⟨[], by simp⟩
        | arr xs => exact ⟨[], by simp⟩

/-- One successful (non-5xx) scripted response makes _post return it after a
single attempt. -/
theorem post_one_resp (r : HttpResponse) (hr : r.status < 500) (req : ChatRequest)
    (tail : List PostResult) (log : List ChatRequest) (c : Nat) :
    post req ⟨.resp r :: tail, log, c⟩ = (.ok r, ⟨tail, log ++ [req], c⟩) := by
  unfold post retryCall post_once doPost
  dsimp only
  rw [if_neg (by omega : ¬(500 ≤ r.status ∧ r.status < 600))]

/-- A response that is not a 429 passes through the fallback check. -/
theorem try_fallback_not429 (cfg : ClientConfig) (r : HttpResponse)
    (messages : List Message) (mt : Int) (temp : Rat) (s : NetState ChatRequest)
    (h : ¬ r.status = 429) :
    try_fallback_if_quota cfg r messages mt temp s = (.ok r, s) := by
  unfold try_fallback_if_quota
  rw [if_pos h]

/-- With a 429 response and a configured fallback, _try_fallback_if_quota is
determined by the classification of the body: the quota trigger posts the
fallback request, a non-object error field crashes with AttributeError, and
everything else returns the original response. -/
theorem try_fallback_branch (cfg : ClientConfig) (r : HttpResponse)
    (messages : List Message) (mt : Int) (temp : Rat) (s : NetState ChatRequest)
    (h429 : r.status = 429) (hcfg : fbConfigured cfg = true) :
    try_fallback_if_quota cfg r messages mt temp s =
      (match quota_body_case r.body with
       | .quota =>
         post ⟨endpoint cfg.fb_base_url, fb_headers cfg,
           ⟨cfg.fb_model, messages, mt, temp, false⟩⟩ s
       | .errNotObj => (.error .attributeError, s)
       | .other => (.ok r, s)) := by
  unfold try_fallback_if_quota quota_body_case
  rw [if_neg (by simp [h429]), if_neg (by simp [hcfg])]
  cases json_loads r.body with
  | none => rfl
  | some j =>
    cases j with
    | obj kvs =>
      dsimp only
      cases (jlookup "error" kvs).getD (.obj []) with
      | obj ekvs =>
        dsimp only
        cases jlookup "code" ekvs with
        | none => rfl
        | some c =>
          cases c with
          | str cs => by_cases hc : cs = "insufficient_quota" <;> simp [hc]
          | null => rfl
          | bool b => rfl
          | num l => rfl
          | arr xs => rfl
          | obj o => rfl
      | null => rfl
      | bool b => rfl
      | num l => rfl
      | str t => rfl
      | arr xs => rfl
    | null => rfl
    | bool b => rfl
    | num l => rfl
    | str t => rfl
    | arr xs => rfl

/-- A 429 whose body or configuration does not trigger the fallback is
returned unchanged. -/
theorem try_fallback_other (cfg : ClientConfig) (r : HttpResponse)
    (messages : List Message) (mt : Int) (temp : Rat) (s : NetState ChatRequest)
    (h429 : r.status = 429)
    (hother : fbConfigured cfg = false ∨ quota_body_case r.body = .other) :
    try_fallback_if_quota cfg r messages mt temp s = (.ok r, s) := by
  rcases hother with hf | ho
  · unfold try_fallback_if_quota
    rw [if_neg (by simp [h429]), if_pos (by simp [hf])]
  · by_cases hcfg : fbConfigured cfg = true
    · rw [try_fallback_branch cfg r messages mt temp s h429 hcfg, ho]
    · unfold try_fallback_if_quota
      rw [if_neg (by simp [h429]), if_pos hcfg]

/-- C2: network-layer failures and 5xx responses are retried with a bounded
attempt count by both clients — 503, 503, 200 yields the 200 content after
exactly 3 attempts, and so does a run of network errors or a mix of a
network error and a 503 before the 200; a permanent 503 and a permanent
network failure both exhaust the cap (4 attempts for the chat client, 3 for
the raw-inference client) and surface the transient HttpError — while a 4xx
(other than the quota-fallback case) is never retried and surfaces
immediately as a permanent error carrying the status code and the truncated
body. -/
theorem C2_retry_policy :
    (∀ (cfg : ClientConfig) (m : Message) (ms : List Message) (mt : Option Int)
       (temp : Rat) (stream : Option Bool),
      (complete_chat cfg (m :: ms) mt temp stream
        (fresh [.resp ⟨503, "bad"⟩, .resp ⟨503, "bad"⟩, .resp ⟨200, okBody⟩])).1 = .ok "hello" ∧
      ((complete_chat cfg (m :: ms) mt temp stream
        (fresh [.resp ⟨503, "bad"⟩, .resp ⟨503, "bad"⟩, .resp ⟨200, okBody⟩])).2).log.length = 3) ∧
    (∀ (cfg : ClientConfig) (m : Message) (ms : List Message) (mt : Option Int)
       (temp : Rat) (stream : Option Bool),
      (complete_chat cfg (m :: ms) mt temp stream
        (fresh [.netErr "boom", .netErr "boom", .resp ⟨200, okBody⟩])).1 = .ok "hello" ∧
      ((complete_chat cfg (m :: ms) mt temp stream
        (fresh [.netErr "boom", .netErr "boom", .resp ⟨200, okBody⟩])).2).log.length = 3) ∧
    (∀ (cfg : ClientConfig) (m : Message) (ms : List Message) (mt : Option Int)
       (temp : Rat) (stream : Option Bool),
      (complete_chat cfg (m :: ms) mt temp stream
        (fresh [.netErr "boom", .resp ⟨503, "bad"⟩, .resp ⟨200, okBody⟩])).1 = .ok "hello" ∧
      ((complete_chat cfg (m :: ms) mt temp stream
        (fresh [.netErr "boom", .resp ⟨503, "bad"⟩, .resp ⟨200, okBody⟩])).2).log.length = 3) ∧
    (∀ (cfg : ClientConfig) (m : Message) (ms : List Message) (mt : Option Int)
       (temp : Rat) (stream : Option Bool),
      (complete_chat cfg (m :: ms) mt temp stream
        (fresh (List.replicate 4 (.resp ⟨503, "bad"⟩)))).1 =
          .error (.httpError "Upstream 503: bad") ∧
      ((complete_chat cfg (m :: ms) mt temp stream
        (fresh (List.replicate 4 (.resp ⟨503, "bad"⟩)))).2).log.length = 4) ∧
    (∀ (cfg : ClientConfig) (m : Message) (ms : List Message) (mt : Option Int)
       (temp : Rat) (stream : Option Bool),
      (complete_chat cfg (m :: ms) mt temp stream
        (fresh (List.replicate 4 (.netErr "boom")))).1 =
          .error (.httpError "Network error: boom") ∧
      ((complete_chat cfg (m :: ms) mt temp stream
        (fresh (List.replicate 4 (.netErr "boom")))).2).log.length = 4) ∧
    (∀ (cfg : ClientConfig) (m : Message) (ms : List Message) (mt : Option Int)
       (temp : Rat) (stream : Option Bool) (status : Nat) (body : String),
      400 ≤ status → status < 500 → status ≠ 429 →
      (complete_chat cfg (m :: ms) mt temp stream (fresh [.resp ⟨status, body⟩])).1 =
        .error (.runtimeError ("LLM API " ++ toString status ++ ": " ++ strTake body 300)) ∧
      ((complete_chat cfg (m :: ms) mt temp stream
        (fresh [.resp ⟨status, body⟩])).2).log.length = 1) ∧
    (∀ (cfg : HFConfig) (msgs : List Message) (mt : Option Int) (temp : Rat),
      (hf_complete_chat cfg msgs mt temp
        (hfFresh [.resp ⟨503, "bad"⟩, .resp ⟨503, "bad"⟩, .resp ⟨200, hfOkBody⟩])).1 = .ok "hello" ∧
      ((hf_complete_chat cfg msgs mt temp
        (hfFresh [.resp ⟨503, "bad"⟩, .resp ⟨503, "bad"⟩, .resp ⟨200, hfOkBody⟩])).2).log.length = 3) ∧
    (∀ (cfg : HFConfig) (msgs : List Message) (mt : Option Int) (temp : Rat),
      (hf_complete_chat cfg msgs mt temp
        (hfFresh [.netErr "boom", .resp ⟨200, hfOkBody⟩])).1 = .ok "hello" ∧
      ((hf_complete_chat cfg msgs mt temp
        (hfFresh [.netErr "boom", .resp ⟨200, hfOkBody⟩])).2).log.length = 2) ∧
    (∀ (cfg : HFConfig) (msgs : List Message) (mt : Option Int) (temp : Rat),
      (hf_complete_chat cfg msgs mt temp
        (hfFresh (List.replicate 3 (.netErr "boom")))).1 =
          .error (.httpError "Network error: boom") ∧
      ((hf_complete_chat cfg msgs mt temp
        (hfFresh (List.replicate 3 (.netErr "boom")))).2).log.length = 3) ∧
    (∀ (cfg : HFConfig) (msgs : List Message) (mt : Option Int) (temp : Rat),
      (hf_complete_chat cfg msgs mt temp
        (hfFresh (List.replicate 3 (.resp ⟨503, "bad"⟩)))).1 =
          .error (.httpError "Upstream 503: bad") ∧
      ((hf_complete_chat cfg msgs mt temp
        (hfFresh (List.replicate 3 (.resp ⟨503, "bad"⟩)))).2).log.length = 3) ∧
    (∀ (cfg : HFConfig) (msgs : List Message) (mt : Option Int) (temp : Rat)
       (status : Nat) (body : String),
      400 ≤ status → status < 500 →
      (hf_complete_chat cfg msgs mt temp (hfFresh [.resp ⟨status, body⟩])).1 =
        .error (.runtimeError ("HF Inference API " ++ toString status ++ ": " ++
          strTake body 300)) ∧
      ((hf_complete_chat cfg msgs mt temp
        (hfFresh [.resp ⟨status, body⟩])).2).log.length = 1) := by
  refine ⟨fun cfg m ms mt temp stream => ⟨rfl, rfl⟩,
    fun cfg m ms mt temp stream => ⟨rfl, rfl⟩,
    fun cfg m ms mt temp stream => ⟨rfl, rfl⟩,
    fun cfg m ms mt temp stream => ⟨rfl, rfl⟩,
    fun cfg m ms mt temp stream => ⟨rfl, rfl⟩, ?_,
    fun cfg msgs mt temp => ⟨rfl, rfl⟩,
    fun cfg msgs mt temp => ⟨rfl, rfl⟩,
    fun cfg msgs mt temp => ⟨rfl, rfl⟩,
    fun cfg msgs mt temp => ⟨rfl, rfl⟩, ?_⟩
  · intro cfg m ms mt temp stream status body h1 h2 h3
    have key : complete_chat cfg (m :: ms) mt temp stream (fresh [.resp ⟨status, body⟩]) =
        (.error (.runtimeError ("LLM API " ++ toString status ++ ": " ++ strTake body 300)),
         ⟨[], [⟨endpoint cfg.base_url, primary_headers cfg,
           ⟨cfg.model, m :: ms, resolve_max_tokens mt cfg.default_max_tokens, temp, false⟩⟩],
          1⟩) := by
      unfold complete_chat
      simp only [List.isEmpty_cons, Bool.false_eq_true, if_false, stream_forced, fresh]
      rw [post_one_resp ⟨status, body⟩ h2]
      dsimp only
      rw [try_fallback_not429 cfg ⟨status, body⟩ (m :: ms)
        (resolve_max_tokens mt cfg.default_max_tokens) temp _ h3]
      dsimp only
      rw [if_pos h1]
      rfl
    rw [key]
    exact ⟨rfl, rfl⟩
  · intro cfg msgs mt temp status body h1 h2
    have key : hf_complete_chat cfg msgs mt temp (hfFresh [.resp ⟨status, body⟩]) =
        (.error (.runtimeError ("HF Inference API " ++ toString status ++ ": " ++
           strTake body 300)),
         ⟨[], [⟨hf_url cfg, hf_headers cfg, qwen_chatml msgs,
           resolve_max_tokens mt cfg.default_max_tokens, temp, false⟩], 1⟩) := by
      unfold hf_complete_chat hf_post retryCall hf_post_once doPost hfFresh
      dsimp only
      rw [if_neg (show ¬ 500 ≤ status by omega), if_pos h1]
      rfl
    rw [key]
    exact ⟨rfl, rfl⟩

/-- C2 witness: the two 4xx conjuncts applied at status 404 with the body
nf: one attempt, permanent error carrying status and body, for both
clients. -/
theorem C2_retry_policy_witness :
    ((complete_chat cfg0 [msg0] none 0.7 none (fresh [.resp ⟨404, "nf"⟩])).1 =
        .error (.runtimeError ("LLM API " ++ toString 404 ++ ": " ++ strTake "nf" 300)) ∧
      ((complete_chat cfg0 [msg0] none 0.7 none
        (fresh [.resp ⟨404, "nf"⟩])).2).log.length = 1) ∧
    ((hf_complete_chat hcfg0 [msg0] none 0.7 (hfFresh [.resp ⟨404, "nf"⟩])).1 =
        .error (.runtimeError ("HF Inference API " ++ toString 404 ++ ": " ++
          strTake "nf" 300)) ∧
      ((hf_complete_chat hcfg0 [msg0] none 0.7
        (hfFresh [.resp ⟨404, "nf"⟩])).2).log.length = 1) :=
  ⟨C2_retry_policy.2.2.2.2.2.1 cfg0 msg0 [] none 0.7 none 404 "nf"
      (by decide) (by decide) (by decide),
   C2_retry_policy.2.2.2.2.2.2.2.2.2.2 hcfg0 [msg0] none 0.7 404 "nf"
      (by decide) (by decide)⟩

/-- C9 counterexample: an explicit max_tokens override of 0 is not used in
the request body; being falsy in Python, it falls back to the configured
default (128 here), so the claim that the effective bound always equals the
explicit override when one is supplied is false at override 0. -/
theorem C9_counterexample :
    (((complete_chat cfg0 [msg0] (some 0) 0.7 none (fresh (okScript 1))).2).log.map
      (fun r => r.payload.max_tokens)) = [(128 : Int)] ∧
    ¬ (((complete_chat cfg0 [msg0] (some 0) 0.7 none (fresh (okScript 1))).2).log.map
      (fun r => r.payload.max_tokens)) = [(0 : Int)] := by
  exact ⟨rfl, by decide⟩

/-- C9 amended: for every non-empty message list the first request sent by
complete_chat carries the configured model, the input messages in input
order, the resolved max-token bound (the explicit override when supplied
and nonzero, the configured default when the override is absent or 0), the
caller temperature unclamped, and stream always false regardless of the
stream argument and the configured streaming default. -/
theorem C9_request_body :
    ∀ (cfg : ClientConfig) (m : Message) (ms : List Message) (mt : Option Int)
      (temp : Rat) (stream : Option Bool) (script : List PostResult),
      ((complete_chat cfg (m :: ms) mt temp stream ⟨script, [], 0⟩).2).log.head? =
        some ⟨endpoint cfg.base_url, primary_headers cfg,
          ⟨cfg.model, m :: ms, resolve_max_tokens mt cfg.default_max_tokens,
           temp, false⟩⟩ := by
  intro cfg m ms mt temp stream script
  unfold complete_chat
  simp only [List.isEmpty_cons, Bool.false_eq_true, if_false, stream_forced]
  split
  case _ e s1 hp =>
    have hl := congrArg (fun p => p.2.log) hp
    simp only at hl
    rw [← hl]
    have h2 := post_log_head
      ⟨endpoint cfg.base_url, primary_headers cfg,
        ⟨cfg.model, m :: ms, resolve_max_tokens mt cfg.default_max_tokens, temp, false⟩⟩
      script (0 + 1) []
    rw [List.append_nil] at h2
    exact h2
  case _ r s1 hp =>
    have hl := congrArg (fun p => p.2.log) hp
    simp only at hl
    split
    case _ e s2 hf =>
      rcases try_fallback_log cfg r (m :: ms)
        (resolve_max_tokens mt cfg.default_max_tokens) temp s1 with ⟨l2, hl3⟩
      rw [hf] at hl3
      simp only at hl3
      rw [hl3, ← hl]
      exact post_log_head _ script (0 + 1) l2
    case _ r2 s2 hf =>
      rcases try_fallback_log cfg r (m :: ms)
        (resolve_max_tokens mt cfg.default_max_tokens) temp s1 with ⟨l2, hl3⟩
      rw [hf] at hl3
      simp only at hl3
      have hfin : s2.log.head? =
          some ⟨endpoint cfg.base_url, primary_headers cfg,
            ⟨cfg.model, m :: ms, resolve_max_tokens mt cfg.default_max_tokens,
             temp, false⟩⟩ := by
        rw [hl3, ← hl]
        exact post_log_head _ script (0 + 1) l2
      split
      · exact hfin
      · split
        · exact hfin
        · split <;> exact hfin

/-- C1 counterexample: a 429 whose parsed body has an error field that is
not itself an object (here the string nope), with a fully configured
fallback, makes err.get crash with AttributeError outside the try block: no
second request is sent, but the original 429 is not surfaced as the
documented upstream error either, contradicting the claim for this case. -/
theorem C1_counterexample :
    (complete_chat cfg0 [msg0] none 0.7 none
      (fresh [.resp ⟨429, "\x7b\"error\":\"nope\"\x7d"⟩])).1 = .error .attributeError ∧
    ((complete_chat cfg0 [msg0] none 0.7 none
      (fresh [.resp ⟨429, "\x7b\"error\":\"nope\"\x7d"⟩])).2).log.length = 1 ∧
    PyErr.attributeError ≠
      .runtimeError ("LLM API 429: " ++ strTake "\x7b\"error\":\"nope\"\x7d" 300) :=
  ⟨rfl, rfl, by decide⟩

/-- C1 amended: on a 429 whose body parses to an object with error code
insufficient_quota and with the fallback triple fully configured,
complete_chat sends exactly one further request, identical in messages,
resolved max_tokens and temperature, to the fallback endpoint with the
fallback model and credentials; on a 429 that does not trigger the fallback
(fallback unconfigured, body unparseable or not an object, or error code
missing or different) no second request is sent and the 429 surfaces as the
upstream RuntimeError; on a 429 whose parsed error field is not an object
(with fallback configured) the call fails with AttributeError instead of
surfacing the 429; on any non-429 response below 500 only the single
primary request is ever sent. -/
theorem C1_quota_fallback :
    (∀ (cfg : ClientConfig) (m : Message) (ms : List Message) (mt : Option Int)
       (temp : Rat) (stream : Option Bool) (fstatus : Nat) (fbody : String),
      fbConfigured cfg = true → fstatus < 500 →
      ((complete_chat cfg (m :: ms) mt temp stream
        (fresh [.resp ⟨429, quotaBody⟩, .resp ⟨fstatus, fbody⟩])).2).log =
        [⟨endpoint cfg.base_url, primary_headers cfg,
           ⟨cfg.model, m :: ms, resolve_max_tokens mt cfg.default_max_tokens,
            temp, false⟩⟩,
         ⟨endpoint cfg.fb_base_url, fb_headers cfg,
           ⟨cfg.fb_model, m :: ms, resolve_max_tokens mt cfg.default_max_tokens,
            temp, false⟩⟩]) ∧
    (∀ (cfg : ClientConfig) (m : Message) (ms : List Message) (mt : Option Int)
       (temp : Rat) (stream : Option Bool) (body : String),
      (fbConfigured cfg = false ∨ quota_body_case body = .other) →
      (complete_chat cfg (m :: ms) mt temp stream (fresh [.resp ⟨429, body⟩])).1 =
        .error (.runtimeError ("LLM API " ++ toString 429 ++ ": " ++ strTake body 300)) ∧
      ((complete_chat cfg (m :: ms) mt temp stream
        (fresh [.resp ⟨429, body⟩])).2).log.length = 1) ∧
    (∀ (cfg : ClientConfig) (m : Message) (ms : List Message) (mt : Option Int)
       (temp : Rat) (stream : Option Bool) (body : String),
      fbConfigured cfg = true → quota_body_case body = .errNotObj →
      (complete_chat cfg (m :: ms) mt temp stream (fresh [.resp ⟨429, body⟩])).1 =
        .error .attributeError ∧
      ((complete_chat cfg (m :: ms) mt temp stream
        (fresh [.resp ⟨429, body⟩])).2).log.length = 1) ∧
    (∀ (cfg : ClientConfig) (m : Message) (ms : List Message) (mt : Option Int)
       (temp : Rat) (stream : Option Bool) (status : Nat) (body : String),
      status ≠ 429 → status < 500 →
      ((complete_chat cfg (m :: ms) mt temp stream
        (fresh [.resp ⟨status, body⟩])).2).log =
        [⟨endpoint cfg.base_url, primary_headers cfg,
           ⟨cfg.model, m :: ms, resolve_max_tokens mt cfg.default_max_tokens,
            temp, false⟩⟩]) := by
  refine ⟨?_, ?_, ?_, ?_⟩
  · intro cfg m ms mt temp stream fstatus fbody hcfg hst
    unfold complete_chat
    simp only [List.isEmpty_cons, Bool.false_eq_true, if_false, stream_forced, fresh]
    rw [post_one_resp ⟨429, quotaBody⟩ (by decide)]
    dsimp only
    rw [try_fallback_branch cfg ⟨429, quotaBody⟩ (m :: ms)
      (resolve_max_tokens mt cfg.default_max_tokens) temp _ rfl hcfg]
    dsimp only
    rw [show quota_body_case quotaBody = QuotaCase.quota from rfl]
    dsimp only
    rw [post_one_resp ⟨fstatus, fbody⟩ hst]
    dsimp only
    split
    · rfl
    · split
      · rfl
      · split <;> rfl
  · intro cfg m ms mt temp stream body hother
    have key : complete_chat cfg (m :: ms) mt temp stream (fresh [.resp ⟨429, body⟩]) =
        (.error (.runtimeError ("LLM API " ++ toString 429 ++ ": " ++ strTake body 300)),
         ⟨[], [⟨endpoint cfg.base_url, primary_headers cfg,
           ⟨cfg.model, m :: ms, resolve_max_tokens mt cfg.default_max_tokens,
            temp, false⟩⟩], 1⟩) := by
      unfold complete_chat
      simp only [List.isEmpty_cons, Bool.false_eq_true, if_false, stream_forced, fresh]
      rw [post_one_resp ⟨429, body⟩ (show (429 : Nat) < 500 by decide)]
      dsimp only
      rw [try_fallback_other cfg ⟨429, body⟩ (m :: ms)
        (resolve_max_tokens mt cfg.default_max_tokens) temp _ rfl hother]
      rfl
    rw [key]
    exact ⟨rfl, rfl⟩
  · intro cfg m ms mt temp stream body hcfg herr
    have key : complete_chat cfg (m :: ms) mt temp stream (fresh [.resp ⟨429, body⟩]) =
        (.error .attributeError,
         ⟨[], [⟨endpoint cfg.base_url, primary_headers cfg,
           ⟨cfg.model, m :: ms, resolve_max_tokens mt cfg.default_max_tokens,
            temp, false⟩⟩], 1⟩) := by
      unfold complete_chat
      simp only [List.isEmpty_cons, Bool.false_eq_true, if_false, stream_forced, fresh]
      rw [post_one_resp ⟨429, body⟩ (show (429 : Nat) < 500 by decide)]
      dsimp only
      rw [try_fallback_branch cfg ⟨429, body⟩ (m :: ms)
        (resolve_max_tokens mt cfg.default_max_tokens) temp _ rfl hcfg]
      dsimp only
      rw [herr]
      rfl
    rw [key]
    exact ⟨rfl, rfl⟩
  · intro cfg m ms mt temp stream status body h1 h2
    unfold complete_chat
    simp only [List.isEmpty_cons, Bool.false_eq_true, if_false, stream_forced, fresh]
    rw [post_one_resp ⟨status, body⟩ h2]
    dsimp only
    rw [try_fallback_not429 cfg ⟨status, body⟩ (m :: ms)
      (resolve_max_tokens mt cfg.default_max_tokens) temp _ h1]
    dsimp only
    split
    · rfl
    · split
      · rfl
      · split <;> rfl

/-- C1 witness: with the configured fallback and override 99, a quota 429
followed by a fallback 200 produces exactly the primary request and one
identical fallback request; a rate-limit 429 surfaces as the upstream
error after one request. -/
theorem C1_quota_fallback_witness :
    ((complete_chat cfg0 [msg0] (some 99) 0.7 none
        (fresh [.resp ⟨429, quotaBody⟩, .resp ⟨200, okBody⟩])).2).log =
      [⟨endpoint cfg0.base_url, primary_headers cfg0,
         ⟨cfg0.model, [msg0], resolve_max_tokens (some 99) cfg0.default_max_tokens,
          0.7, false⟩⟩,
       ⟨endpoint cfg0.fb_base_url, fb_headers cfg0,
         ⟨cfg0.fb_model, [msg0], resolve_max_tokens (some 99) cfg0.default_max_tokens,
          0.7, false⟩⟩] ∧
    (complete_chat cfg0 [msg0] none 0.7 none
      (fresh [.resp ⟨429, "\x7b\"error\":\x7b\"code\":\"rate_limit\"\x7d\x7d"⟩])).1 =
      .error (.runtimeError ("LLM API " ++ toString 429 ++ ": " ++
        strTake "\x7b\"error\":\x7b\"code\":\"rate_limit\"\x7d\x7d" 300)) :=
  ⟨C1_quota_fallback.1 cfg0 msg0 [] (some 99) 0.7 none 200 okBody
      (by decide) (by decide),
   (C1_quota_fallback.2.1 cfg0 msg0 [] none 0.7 none
      "\x7b\"error\":\x7b\"code\":\"rate_limit\"\x7d\x7d" (Or.inr (by rfl))).1⟩

end ISim
